import Mathlib

/-! # CH32VX PWM library: shallow embedding and verified properties

The development embeds `lib/CH32V_PWM/ch32v_pwm.c` (with the declarations of
`ch32v_pwm.h`) as pure state-passing functions.

* C machine integers are natural numbers (or `Int` for the `int` pin argument);
  every store that can overflow its field carries an explicit `% 65536`.
* A pointer argument `PWM_handle *object` becomes a handle value passed in and
  returned.
* The memory-mapped peripherals are an explicit record `HW` that every
  operation takes and returns.  The vendor peripheral library (`TIM_Cmd`,
  `TIM_OC1Init`, ...) is not part of the repository; each of its entry points
  used by the driver is modelled as the register update the specification
  attributes to it.
-/

namespace CH32VPWM

/-! ## Constants of `ch32v_pwm.h` -/

/-- Timer selector `PWM_TIM1`. -/
@[reducible] def PWM_TIM1 : Nat := 1
/-- Timer selector `PWM_TIM2`. -/
@[reducible] def PWM_TIM2 : Nat := 2
/-- Timer selector `PWM_TIM3`. -/
@[reducible] def PWM_TIM3 : Nat := 3
/-- Timer selector `PWM_TIM4`. -/
@[reducible] def PWM_TIM4 : Nat := 4

/-- Channel selector `PWM_CH1`. -/
@[reducible] def PWM_CH1 : Nat := 1
/-- Channel selector `PWM_CH2`. -/
@[reducible] def PWM_CH2 : Nat := 2
/-- Channel selector `PWM_CH3`. -/
@[reducible] def PWM_CH3 : Nat := 3
/-- Channel selector `PWM_CH4`. -/
@[reducible] def PWM_CH4 : Nat := 4

/-- Output mode `PWM_MODE1`. -/
@[reducible] def PWM_MODE1 : Nat := 0
/-- Output mode `PWM_MODE2`. -/
@[reducible] def PWM_MODE2 : Nat := 1

/-- Number of values of a `uint8_t`. -/
@[reducible] def U8 : Nat := 256
/-- Number of values of a `uint16_t`. -/
@[reducible] def U16 : Nat := 65536

/-! ## The handle -/

/-- The C struct `PWM_handle`: `pwm_mode`, `prescaler`, `period`, `duty_cycle`
are `uint16_t`, `timer` and `channel` are `uint8_t`. -/
structure PWM_handle where
  pwm_mode : Nat
  timer : Nat
  channel : Nat
  prescaler : Nat
  period : Nat
  duty_cycle : Nat
deriving DecidableEq, Repr

/-- Every field holds a value of its C type. -/
def PWM_handle.wf (h : PWM_handle) : Prop :=
  h.pwm_mode < U16 ∧ h.timer < U8 ∧ h.channel < U8 ∧
  h.prescaler < U16 ∧ h.period < U16 ∧ h.duty_cycle < U16

instance PWM_handle.decWf (h : PWM_handle) : Decidable h.wf := by
  unfold PWM_handle.wf; infer_instance

/-- The handle after `PWM_handle h = {0};`. -/
def PWM_handle.zero : PWM_handle :=
  { pwm_mode := 0, timer := 0, channel := 0, prescaler := 0, period := 0, duty_cycle := 0 }

/-! ## Peripheral state

The register interface of the vendor peripheral library, reduced to the
state the driver programs. -/

/-- The four timer register blocks `TIM1` .. `TIM4`. -/
inductive TIM_TypeDef where
  | TIM1 | TIM2 | TIM3 | TIM4
deriving DecidableEq, Repr

/-- The four port register blocks `GPIOA` .. `GPIOD`. -/
inductive GPIO_TypeDef where
  | GPIOA | GPIOB | GPIOC | GPIOD
deriving DecidableEq, Repr

/-- Output-compare comparison modes used by the driver
(`TIM_OCMode_PWM1`, `TIM_OCMode_PWM2`). -/
inductive TIM_OCMode where
  | PWM1 | PWM2
deriving DecidableEq, Repr

/-- Output polarity (`TIM_OCPolarity_High`, `TIM_OCPolarity_Low`). -/
inductive TIM_OCPolarity where
  | High | Low
deriving DecidableEq, Repr

/-- Clock division of the timebase (`TIM_CKD_DIV1`, ...). -/
inductive TIM_CKD where
  | DIV1 | DIV2 | DIV4
deriving DecidableEq, Repr

/-- Counting direction of the timebase (`TIM_CounterMode_Up`, ...). -/
inductive TIM_CounterMode where
  | Up | Down
deriving DecidableEq, Repr

/-- The fields of `TIM_OCInitTypeDef` the driver fills in; `TIM_OutputState`
is `true` for `TIM_OutputState_Enable`. -/
structure TIM_OCInitTypeDef where
  TIM_OCMode : TIM_OCMode
  TIM_OutputState : Bool
  TIM_Pulse : Nat
  TIM_OCPolarity : TIM_OCPolarity
deriving DecidableEq, Repr

/-- The fields of `TIM_TimeBaseInitTypeDef` the driver fills in. -/
structure TIM_TimeBaseInitTypeDef where
  TIM_Period : Nat
  TIM_Prescaler : Nat
  TIM_ClockDivision : TIM_CKD
  TIM_CounterMode : TIM_CounterMode
deriving DecidableEq, Repr

/-- One output-compare unit: the last programmed configuration (`none` after
reset) and its compare-preload flag. -/
structure OC_Regs where
  oc : Option TIM_OCInitTypeDef
  preload : Bool
deriving DecidableEq, Repr

/-- One timer: timebase, counter-enable flag, main-output-enable flag,
auto-reload-preload flag and four output-compare units. -/
structure TIM_Regs where
  timeBase : Option TIM_TimeBaseInitTypeDef
  counterEnable : Bool
  mainOutputEnable : Bool
  arrPreload : Bool
  ch1 : OC_Regs
  ch2 : OC_Regs
  ch3 : OC_Regs
  ch4 : OC_Regs
deriving DecidableEq, Repr

/-- One port: the bit mask of pins configured as alternate-function push-pull
output at 50 MHz (the only pin configuration the driver requests). -/
structure GPIO_Regs where
  afpp50 : Nat
deriving DecidableEq, Repr

/-- Peripheral clock gates the driver touches. -/
structure RCC_Regs where
  gpioa : Bool
  gpiob : Bool
  gpioc : Bool
  gpiod : Bool
  tim1 : Bool
  tim2 : Bool
  tim3 : Bool
  tim4 : Bool
deriving DecidableEq, Repr

/-- The peripherals the driver programs. -/
structure HW where
  tim1 : TIM_Regs
  tim2 : TIM_Regs
  tim3 : TIM_Regs
  tim4 : TIM_Regs
  gpioa : GPIO_Regs
  gpiob : GPIO_Regs
  gpioc : GPIO_Regs
  gpiod : GPIO_Regs
  rcc : RCC_Regs
deriving DecidableEq, Repr

/-- Reset state of an output-compare unit. -/
def OC_Regs.reset : OC_Regs := { oc := none, preload := false }

/-- Reset state of a timer. -/
def TIM_Regs.reset : TIM_Regs :=
  { timeBase := none, counterEnable := false, mainOutputEnable := false,
    arrPreload := false, ch1 := OC_Regs.reset, ch2 := OC_Regs.reset,
    ch3 := OC_Regs.reset, ch4 := OC_Regs.reset }

/-- Reset state of the peripherals. -/
def HW.reset : HW :=
  { tim1 := TIM_Regs.reset, tim2 := TIM_Regs.reset, tim3 := TIM_Regs.reset,
    tim4 := TIM_Regs.reset, gpioa := { afpp50 := 0 }, gpiob := { afpp50 := 0 },
    gpioc := { afpp50 := 0 }, gpiod := { afpp50 := 0 },
    rcc := { gpioa := false, gpiob := false, gpioc := false, gpiod := false,
             tim1 := false, tim2 := false, tim3 := false, tim4 := false } }

/-- Read the register block of a timer. -/
def HW.tim (hw : HW) : TIM_TypeDef → TIM_Regs
  | .TIM1 => hw.tim1
  | .TIM2 => hw.tim2
  | .TIM3 => hw.tim3
  | .TIM4 => hw.tim4

/-- Replace the register block of a timer. -/
def HW.setTim (hw : HW) (t : TIM_TypeDef) (r : TIM_Regs) : HW :=
  match t with
  | .TIM1 => { hw with tim1 := r }
  | .TIM2 => { hw with tim2 := r }
  | .TIM3 => { hw with tim3 := r }
  | .TIM4 => { hw with tim4 := r }

/-- Read the register block of a port. -/
def HW.gpio (hw : HW) : GPIO_TypeDef → GPIO_Regs
  | .GPIOA => hw.gpioa
  | .GPIOB => hw.gpiob
  | .GPIOC => hw.gpioc
  | .GPIOD => hw.gpiod

/-- Replace the register block of a port. -/
def HW.setGpio (hw : HW) (p : GPIO_TypeDef) (r : GPIO_Regs) : HW :=
  match p with
  | .GPIOA => { hw with gpioa := r }
  | .GPIOB => { hw with gpiob := r }
  | .GPIOC => { hw with gpioc := r }
  | .GPIOD => { hw with gpiod := r }

/-- Read an output-compare unit of a timer by channel number 1..4
(`none` for any other number). -/
def TIM_Regs.ch (r : TIM_Regs) (c : Nat) : Option OC_Regs :=
  if c = 1 then some r.ch1
  else if c = 2 then some r.ch2
  else if c = 3 then some r.ch3
  else if c = 4 then some r.ch4
  else none

/-! ## Vendor peripheral library -/

/-- Modelled from the spec: `TIM_Cmd` of the vendor library (counter
enable/disable, addressed by timer identity) sets or clears the timer's
counter-enable flag. -/
def TIM_Cmd (t : TIM_TypeDef) (en : Bool) (hw : HW) : HW :=
  hw.setTim t { hw.tim t with counterEnable := en }

/-- Modelled from the spec: `TIM_CtrlPWMOutputs` of the vendor library sets or
clears the timer's main-output-enable flag. -/
def TIM_CtrlPWMOutputs (t : TIM_TypeDef) (en : Bool) (hw : HW) : HW :=
  hw.setTim t { hw.tim t with mainOutputEnable := en }

/-- Modelled from the spec: `TIM_ARRPreloadConfig` of the vendor library sets
or clears the timer's auto-reload-preload flag. -/
def TIM_ARRPreloadConfig (t : TIM_TypeDef) (en : Bool) (hw : HW) : HW :=
  hw.setTim t { hw.tim t with arrPreload := en }

/-- Modelled from the spec: `TIM_OC1Init` of the vendor library programs
output-compare unit 1 of the timer (mode, output state, pulse, polarity). -/
def TIM_OC1Init (t : TIM_TypeDef) (i : TIM_OCInitTypeDef) (hw : HW) : HW :=
  hw.setTim t { hw.tim t with ch1 := { (hw.tim t).ch1 with oc := some i } }

/-- Modelled from the spec: `TIM_OC2Init` programs output-compare unit 2. -/
def TIM_OC2Init (t : TIM_TypeDef) (i : TIM_OCInitTypeDef) (hw : HW) : HW :=
  hw.setTim t { hw.tim t with ch2 := { (hw.tim t).ch2 with oc := some i } }

/-- Modelled from the spec: `TIM_OC3Init` programs output-compare unit 3. -/
def TIM_OC3Init (t : TIM_TypeDef) (i : TIM_OCInitTypeDef) (hw : HW) : HW :=
  hw.setTim t { hw.tim t with ch3 := { (hw.tim t).ch3 with oc := some i } }

/-- Modelled from the spec: `TIM_OC4Init` programs output-compare unit 4. -/
def TIM_OC4Init (t : TIM_TypeDef) (i : TIM_OCInitTypeDef) (hw : HW) : HW :=
  hw.setTim t { hw.tim t with ch4 := { (hw.tim t).ch4 with oc := some i } }

/-- Modelled from the spec: `TIM_OC1PreloadConfig` sets the compare-preload
flag of unit 1 (`false` for `TIM_OCPreload_Disable`). -/
def TIM_OC1PreloadConfig (t : TIM_TypeDef) (p : Bool) (hw : HW) : HW :=
  hw.setTim t { hw.tim t with ch1 := { (hw.tim t).ch1 with preload := p } }

/-- Modelled from the spec: `TIM_OC2PreloadConfig` sets the compare-preload
flag of unit 2. -/
def TIM_OC2PreloadConfig (t : TIM_TypeDef) (p : Bool) (hw : HW) : HW :=
  hw.setTim t { hw.tim t with ch2 := { (hw.tim t).ch2 with preload := p } }

/-- Modelled from the spec: `TIM_OC3PreloadConfig` sets the compare-preload
flag of unit 3. -/
def TIM_OC3PreloadConfig (t : TIM_TypeDef) (p : Bool) (hw : HW) : HW :=
  hw.setTim t { hw.tim t with ch3 := { (hw.tim t).ch3 with preload := p } }

/-- Modelled from the spec: `TIM_OC4PreloadConfig` sets the compare-preload
flag of unit 4. -/
def TIM_OC4PreloadConfig (t : TIM_TypeDef) (p : Bool) (hw : HW) : HW :=
  hw.setTim t { hw.tim t with ch4 := { (hw.tim t).ch4 with preload := p } }

/-- Modelled from the spec: `TIM_TimeBaseInit` programs counting mode, period,
prescaler and clock division into the timer's timebase unit. -/
def TIM_TimeBaseInit (t : TIM_TypeDef) (i : TIM_TimeBaseInitTypeDef) (hw : HW) : HW :=
  hw.setTim t { hw.tim t with timeBase := some i }

/-- Clock domains on the APB2 bus the driver enables. -/
inductive RCC_APB2Periph where
  | GPIOA | GPIOB | GPIOC | GPIOD | TIM1
deriving DecidableEq, Repr

/-- Clock domains on the APB1 bus the driver enables. -/
inductive RCC_APB1Periph where
  | TIM2 | TIM3 | TIM4
deriving DecidableEq, Repr

/-- Modelled from the spec: `RCC_APB2PeriphClockCmd` enables or disables the
clock domain of a port or of timer 1. -/
def RCC_APB2PeriphClockCmd (p : RCC_APB2Periph) (en : Bool) (hw : HW) : HW :=
  match p with
  | .GPIOA => { hw with rcc := { hw.rcc with gpioa := en } }
  | .GPIOB => { hw with rcc := { hw.rcc with gpiob := en } }
  | .GPIOC => { hw with rcc := { hw.rcc with gpioc := en } }
  | .GPIOD => { hw with rcc := { hw.rcc with gpiod := en } }
  | .TIM1 => { hw with rcc := { hw.rcc with tim1 := en } }

/-- Modelled from the spec: `RCC_APB1PeriphClockCmd` enables or disables the
clock domain of timer 2, 3 or 4. -/
def RCC_APB1PeriphClockCmd (p : RCC_APB1Periph) (en : Bool) (hw : HW) : HW :=
  match p with
  | .TIM2 => { hw with rcc := { hw.rcc with tim2 := en } }
  | .TIM3 => { hw with rcc := { hw.rcc with tim3 := en } }
  | .TIM4 => { hw with rcc := { hw.rcc with tim4 := en } }

/-- Pin mask `GPIO_Pin_0` of the vendor library. -/
@[reducible] def GPIO_Pin_0 : Nat := 1

/-- Modelled from the spec: `GPIO_Init` with `GPIO_Mode_AF_PP` and
`GPIO_Speed_50MHz` (the only configuration the driver requests) sets the pins
of the mask `GPIO_Pin` to alternate-function push-pull output. -/
def GPIO_Init (p : GPIO_TypeDef) (GPIO_Pin : Nat) (hw : HW) : HW :=
  hw.setGpio p { afpp50 := (hw.gpio p).afpp50 ||| GPIO_Pin }

/-! ## The driver (`ch32v_pwm.c`) -/

/-- The function `init_pwm_base`.  `SystemCoreClock` is the vendor library's
`uint32_t` clock-rate variable.  The handle fields are written first; the
prescaler is the `uint32_t` quotient `SystemCoreClock / iCount / iF_base`
stored into a `uint16_t` field.  Then the pin code is validated (`-1` is
returned for a pin below `0xa0` or above `0xdf`), the port clock is enabled
and the pin configured, and the timebase of the selected timer is programmed.
Division by zero is undefined in C: the result is `none` when `iCount` or
`iF_base` is zero. -/
def init_pwm_base (SystemCoreClock : Nat) (object : PWM_handle) (iTimer iChannel : Nat)
    (iPin : Int) (iF_base iCount iPwm_mode : Nat) (hw : HW) :
    Option (PWM_handle × HW × Int) :=
  if iCount = 0 ∨ iF_base = 0 then none
  else
    -- --------- Set attributes ----------
    let object : PWM_handle :=
      { object with
        pwm_mode := iPwm_mode
        timer := iTimer
        channel := iChannel
        period := iCount
        prescaler := (SystemCoreClock / iCount / iF_base) % U16 }
    -- ---------- Set Pin as output ---------
    if iPin < 0xa0 ∨ iPin > 0xdf then some (object, hw, -1)
    else
      let GPIO_Pin : Nat := GPIO_Pin_0 <<< (iPin.toNat &&& 0xf)
      let hw : HW :=
        if iPin.toNat &&& 0xf0 = 0xa0 then
          hw |> RCC_APB2PeriphClockCmd .GPIOA true |> GPIO_Init .GPIOA GPIO_Pin
        else if iPin.toNat &&& 0xf0 = 0xb0 then
          hw |> RCC_APB2PeriphClockCmd .GPIOB true |> GPIO_Init .GPIOB GPIO_Pin
        else if iPin.toNat &&& 0xf0 = 0xc0 then
          hw |> RCC_APB2PeriphClockCmd .GPIOC true |> GPIO_Init .GPIOC GPIO_Pin
        else if iPin.toNat &&& 0xf0 = 0xd0 then
          hw |> RCC_APB2PeriphClockCmd .GPIOD true |> GPIO_Init .GPIOD GPIO_Pin
        else hw
      -- ---------- Initialize Timer ----------
      let TIM_TimeBaseInitStructure : TIM_TimeBaseInitTypeDef :=
        { TIM_Period := object.period
          TIM_Prescaler := object.prescaler
          TIM_ClockDivision := .DIV1
          TIM_CounterMode := .Up }
      let hw : HW :=
        if object.timer = PWM_TIM1 then
          hw |> RCC_APB2PeriphClockCmd .TIM1 true |> TIM_TimeBaseInit .TIM1 TIM_TimeBaseInitStructure
        else if object.timer = PWM_TIM2 then
          hw |> RCC_APB1PeriphClockCmd .TIM2 true |> TIM_TimeBaseInit .TIM2 TIM_TimeBaseInitStructure
        else if object.timer = PWM_TIM3 then
          hw |> RCC_APB1PeriphClockCmd .TIM3 true |> TIM_TimeBaseInit .TIM3 TIM_TimeBaseInitStructure
        else if object.timer = PWM_TIM4 then
          hw |> RCC_APB1PeriphClockCmd .TIM4 true |> TIM_TimeBaseInit .TIM4 TIM_TimeBaseInitStructure
        else hw
      some (object, hw, 0)

/-- The C struct `init_pwm_args` (the argument record built by the `init_pwm`
wrapper), with the handle it points to.  A field left out of the initializer
is zero. -/
structure init_pwm_args where
  object : PWM_handle
  iTimer : Nat
  iChannel : Nat
  u16Pin : Nat
  iF_base : Nat
  iCount : Nat
  iPwm_mode : Nat
deriving DecidableEq, Repr

/-- The function `var_init_pwm` behind `init_pwm(...)`: a zero `iCount`
becomes 254, a zero `iPwm_mode` becomes `PWM_MODE2`. -/
def var_init_pwm (SystemCoreClock : Nat) (args : init_pwm_args) (hw : HW) :
    Option (PWM_handle × HW × Int) :=
  let iCount_out : Nat := if args.iCount ≠ 0 then args.iCount else 254
  let iPwm_mode_out : Nat := if args.iPwm_mode ≠ 0 then args.iPwm_mode else PWM_MODE2
  init_pwm_base SystemCoreClock args.object args.iTimer args.iChannel (args.u16Pin : Int)
    args.iF_base iCount_out iPwm_mode_out hw

/-- The function `set_pwm_dutycycle`.  The comparison `duty > period + 1` and
the inversion `-(duty_cycle - (period + 1))` are computed in `int`; each
assignment to the `uint16_t` field `duty_cycle` reduces modulo 65536. -/
def set_pwm_dutycycle (object : PWM_handle) (duty : Nat) (hw : HW) : PWM_handle × HW :=
  let TIM_OCMode : TIM_OCMode :=
    if object.pwm_mode = PWM_MODE1 then .PWM1 else .PWM2
  -- ---------- Set Timer PWM duty cycle ----------
  let object : PWM_handle :=
    { object with
      duty_cycle := if duty > object.period + 1 then (object.period + 1) % U16 else duty % U16 }
  -- invert for 255 = full on, 0 = full off
  let object : PWM_handle :=
    { object with
      duty_cycle :=
        ((-((object.duty_cycle : Int) - ((object.period : Int) + 1))) % (U16 : Int)).toNat }
  let TIM_OCInitStructure : TIM_OCInitTypeDef :=
    { TIM_OCMode := TIM_OCMode
      TIM_OutputState := true
      TIM_Pulse := object.duty_cycle
      TIM_OCPolarity := .High }
  -- ---------- Configure Timer and Channel ----------
  let hw : HW :=
    if object.timer = PWM_TIM1 then
      if object.channel = PWM_CH1 then
        hw |> TIM_OC1Init .TIM1 TIM_OCInitStructure
           |> TIM_CtrlPWMOutputs .TIM1 true
           |> TIM_OC1PreloadConfig .TIM1 false
           |> TIM_ARRPreloadConfig .TIM1 true
      else if object.channel = PWM_CH2 then
        hw |> TIM_OC2Init .TIM1 TIM_OCInitStructure
           |> TIM_CtrlPWMOutputs .TIM1 true
           |> TIM_OC2PreloadConfig .TIM1 false
           |> TIM_ARRPreloadConfig .TIM1 true
      else if object.channel = PWM_CH3 then
        hw |> TIM_OC3Init .TIM1 TIM_OCInitStructure
           |> TIM_CtrlPWMOutputs .TIM1 true
           |> TIM_OC3PreloadConfig .TIM1 false
           |> TIM_ARRPreloadConfig .TIM1 true
      else if object.channel = PWM_CH4 then
        hw |> TIM_OC4Init .TIM1 TIM_OCInitStructure
           |> TIM_CtrlPWMOutputs .TIM1 true
           |> TIM_OC4PreloadConfig .TIM1 false
           |> TIM_ARRPreloadConfig .TIM1 true
      else hw
    else if object.timer = PWM_TIM2 then
      if object.channel = PWM_CH1 then
        hw |> TIM_OC1Init .TIM2 TIM_OCInitStructure
           |> TIM_CtrlPWMOutputs .TIM2 true
           |> TIM_OC1PreloadConfig .TIM2 false
           |> TIM_ARRPreloadConfig .TIM2 true
      else if object.channel = PWM_CH2 then
        hw |> TIM_OC2Init .TIM2 TIM_OCInitStructure
           |> TIM_CtrlPWMOutputs .TIM2 true
           |> TIM_OC2PreloadConfig .TIM2 false
           |> TIM_ARRPreloadConfig .TIM2 true
      else if object.channel = PWM_CH3 then
        hw |> TIM_OC3Init .TIM2 TIM_OCInitStructure
           |> TIM_CtrlPWMOutputs .TIM2 true
           |> TIM_OC3PreloadConfig .TIM2 false
           |> TIM_ARRPreloadConfig .TIM2 true
      else if object.channel = PWM_CH4 then
        hw |> TIM_OC4Init .TIM2 TIM_OCInitStructure
           |> TIM_CtrlPWMOutputs .TIM2 true
           |> TIM_OC4PreloadConfig .TIM2 false
           |> TIM_ARRPreloadConfig .TIM2 true
      else hw
    else if object.timer = PWM_TIM3 then
      if object.channel = PWM_CH1 then
        hw |> TIM_OC1Init .TIM3 TIM_OCInitStructure
           |> TIM_CtrlPWMOutputs .TIM3 true
           |> TIM_OC1PreloadConfig .TIM3 false
           |> TIM_ARRPreloadConfig .TIM3 true
      else if object.channel = PWM_CH2 then
        hw |> TIM_OC2Init .TIM3 TIM_OCInitStructure
           |> TIM_CtrlPWMOutputs .TIM3 true
           |> TIM_OC2PreloadConfig .TIM3 false
           |> TIM_ARRPreloadConfig .TIM3 true
      else if object.channel = PWM_CH3 then
        hw |> TIM_OC3Init .TIM3 TIM_OCInitStructure
           |> TIM_CtrlPWMOutputs .TIM3 true
           |> TIM_OC3PreloadConfig .TIM3 false
           |> TIM_ARRPreloadConfig .TIM3 true
      else if object.channel = PWM_CH4 then
        hw |> TIM_OC4Init .TIM3 TIM_OCInitStructure
           |> TIM_CtrlPWMOutputs .TIM3 true
           |> TIM_OC4PreloadConfig .TIM3 false
           |> TIM_ARRPreloadConfig .TIM3 true
      else hw
    else if object.timer = PWM_TIM4 then
      if object.channel = PWM_CH1 then
        hw |> TIM_OC1Init .TIM4 TIM_OCInitStructure
           |> TIM_CtrlPWMOutputs .TIM4 true
           |> TIM_OC1PreloadConfig .TIM4 false
           |> TIM_ARRPreloadConfig .TIM4 true
      else if object.channel = PWM_CH2 then
        hw |> TIM_OC2Init .TIM4 TIM_OCInitStructure
           |> TIM_CtrlPWMOutputs .TIM4 true
           |> TIM_OC2PreloadConfig .TIM4 false
           |> TIM_ARRPreloadConfig .TIM4 true
      else if object.channel = PWM_CH3 then
        hw |> TIM_OC3Init .TIM4 TIM_OCInitStructure
           |> TIM_CtrlPWMOutputs .TIM4 true
           |> TIM_OC3PreloadConfig .TIM4 false
           |> TIM_ARRPreloadConfig .TIM4 true
      else if object.channel = PWM_CH4 then
        hw |> TIM_OC4Init .TIM4 TIM_OCInitStructure
           |> TIM_CtrlPWMOutputs .TIM4 true
           |> TIM_OC4PreloadConfig .TIM4 false
           |> TIM_ARRPreloadConfig .TIM4 true
      else hw
    else hw
  (object, hw)

/-- The function `enable_pwm_output`: starts the counter of the handle's
timer. -/
def enable_pwm_output (object : PWM_handle) (hw : HW) : PWM_handle × HW :=
  let hw : HW :=
    if object.timer = PWM_TIM1 then TIM_Cmd .TIM1 true hw
    else if object.timer = PWM_TIM2 then TIM_Cmd .TIM2 true hw
    else if object.timer = PWM_TIM3 then TIM_Cmd .TIM3 true hw
    else if object.timer = PWM_TIM4 then TIM_Cmd .TIM4 true hw
    else hw
  (object, hw)

/-- The function `disable_pwm_output`: stops the counter of the handle's
timer. -/
def disable_pwm_output (object : PWM_handle) (hw : HW) : PWM_handle × HW :=
  let hw : HW :=
    if object.timer = PWM_TIM1 then TIM_Cmd .TIM1 false hw
    else if object.timer = PWM_TIM2 then TIM_Cmd .TIM2 false hw
    else if object.timer = PWM_TIM3 then TIM_Cmd .TIM3 false hw
    else if object.timer = PWM_TIM4 then TIM_Cmd .TIM4 false hw
    else hw
  (object, hw)

/-! ## Table-driven form of the timer/channel switch

Used to reason about the sixteen arms of `set_pwm_dutycycle` uniformly; the
lemma `set_pwm_dutycycle_hw` relates it to the driver. -/

/-- The register block selected by a timer number of `ch32v_pwm.h`
(`none` outside 1..4). -/
def TIM_TypeDef.ofId (n : Nat) : Option TIM_TypeDef :=
  if n = PWM_TIM1 then some .TIM1
  else if n = PWM_TIM2 then some .TIM2
  else if n = PWM_TIM3 then some .TIM3
  else if n = PWM_TIM4 then some .TIM4
  else none

/-- The four output-compare units of a timer. -/
inductive OC_Unit where
  | CH1 | CH2 | CH3 | CH4
deriving DecidableEq, Repr

/-- The output-compare unit selected by a channel number of `ch32v_pwm.h`. -/
def OC_Unit.ofId (n : Nat) : Option OC_Unit :=
  if n = PWM_CH1 then some .CH1
  else if n = PWM_CH2 then some .CH2
  else if n = PWM_CH3 then some .CH3
  else if n = PWM_CH4 then some .CH4
  else none

/-- Program output-compare unit `c` of timer `t`. -/
def TIM_OCxInit (c : OC_Unit) (t : TIM_TypeDef) (i : TIM_OCInitTypeDef) (hw : HW) : HW :=
  match c with
  | .CH1 => TIM_OC1Init t i hw
  | .CH2 => TIM_OC2Init t i hw
  | .CH3 => TIM_OC3Init t i hw
  | .CH4 => TIM_OC4Init t i hw

/-- Set the compare-preload flag of unit `c` of timer `t`. -/
def TIM_OCxPreloadConfig (c : OC_Unit) (t : TIM_TypeDef) (p : Bool) (hw : HW) : HW :=
  match c with
  | .CH1 => TIM_OC1PreloadConfig t p hw
  | .CH2 => TIM_OC2PreloadConfig t p hw
  | .CH3 => TIM_OC3PreloadConfig t p hw
  | .CH4 => TIM_OC4PreloadConfig t p hw

/-- The four register writes of one arm of the switch, for timer `t` and
channel index `c`. -/
def programChannel (t : TIM_TypeDef) (c : OC_Unit) (i : TIM_OCInitTypeDef) (hw : HW) : HW :=
  hw |> TIM_OCxInit c t i
     |> TIM_CtrlPWMOutputs t true
     |> TIM_OCxPreloadConfig c t false
     |> TIM_ARRPreloadConfig t true

/-- Table-driven form of the timer/channel switch, as the specification
describes it: a lookup from (timer, channel) to the register block and the
channel-specific programming function; a pair outside the table programs
nothing. -/
def programLookup (timer channel : Nat) (i : TIM_OCInitTypeDef) (hw : HW) : HW :=
  match TIM_TypeDef.ofId timer, OC_Unit.ofId channel with
  | some t, some c => programChannel t c i hw
  | _, _ => hw

/-- The register block of a timer after one arm of the switch for unit `c`:
the unit holds the configuration `i` with compare preload off, main output
and auto-reload preload are on, everything else is as before. -/
def programRegs (c : OC_Unit) (i : TIM_OCInitTypeDef) (r : TIM_Regs) : TIM_Regs :=
  match c with
  | .CH1 =>
    { r with ch1 := { oc := some i, preload := false }, mainOutputEnable := true,
             arrPreload := true }
  | .CH2 =>
    { r with ch2 := { oc := some i, preload := false }, mainOutputEnable := true,
             arrPreload := true }
  | .CH3 =>
    { r with ch3 := { oc := some i, preload := false }, mainOutputEnable := true,
             arrPreload := true }
  | .CH4 =>
    { r with ch4 := { oc := some i, preload := false }, mainOutputEnable := true,
             arrPreload := true }

/-- The output-compare configuration `set_pwm_dutycycle` builds from the
updated handle. -/
def ocInitOf (object : PWM_handle) : TIM_OCInitTypeDef :=
  { TIM_OCMode := if object.pwm_mode = PWM_MODE1 then .PWM1 else .PWM2
    TIM_OutputState := true
    TIM_Pulse := object.duty_cycle
    TIM_OCPolarity := .High }

/-- Read an output-compare unit of a timer. -/
def TIM_Regs.unit (r : TIM_Regs) : OC_Unit → OC_Regs
  | .CH1 => r.ch1
  | .CH2 => r.ch2
  | .CH3 => r.ch3
  | .CH4 => r.ch4

/-! ## Observations -/

/-- The pulse last programmed into channel `channel` of timer `timer`
(`none` if the pair is not one of the sixteen, or the unit was never
programmed). -/
def HW.pulse (hw : HW) (timer channel : Nat) : Option Nat :=
  match TIM_TypeDef.ofId timer with
  | none => none
  | some t =>
    match (hw.tim t).ch channel with
    | none => none
    | some u => u.oc.map (fun i => i.TIM_Pulse)

/-- The handle fields `init_pwm_base` writes before it validates the pin. -/
def init_pwm_base_handle (SystemCoreClock : Nat) (object : PWM_handle)
    (iTimer iChannel iF_base iCount iPwm_mode : Nat) : PWM_handle :=
  { object with
    pwm_mode := iPwm_mode
    timer := iTimer
    channel := iChannel
    period := iCount
    prescaler := (SystemCoreClock / iCount / iF_base) % U16 }

/-! ## Call sequences -/

/-- One call of the driver's interface on a handle: `init_pwm_base`,
`init_pwm` (that is `var_init_pwm`), `set_pwm_dutycycle`, `enable_pwm_output`
or `disable_pwm_output`, with its arguments. -/
inductive Call where
  | initBase (iTimer iChannel : Nat) (iPin : Int) (iF_base iCount iPwm_mode : Nat)
  | init (iTimer iChannel u16Pin iF_base iCount iPwm_mode : Nat)
  | setDuty (duty : Nat)
  | enable
  | disable
deriving DecidableEq, Repr

/-- Execute one call on a handle and the peripherals (`none`: the call divides
by zero). -/
def Call.exec (SystemCoreClock : Nat) (s : PWM_handle × HW) : Call → Option (PWM_handle × HW)
  | .initBase iTimer iChannel iPin iF_base iCount iPwm_mode =>
    (init_pwm_base SystemCoreClock s.1 iTimer iChannel iPin iF_base iCount iPwm_mode s.2).map
      (fun r => (r.1, r.2.1))
  | .init iTimer iChannel u16Pin iF_base iCount iPwm_mode =>
    (var_init_pwm SystemCoreClock
      { object := s.1, iTimer := iTimer, iChannel := iChannel, u16Pin := u16Pin,
        iF_base := iF_base, iCount := iCount, iPwm_mode := iPwm_mode } s.2).map
      (fun r => (r.1, r.2.1))
  | .setDuty duty => some (set_pwm_dutycycle s.1 duty s.2)
  | .enable => some (enable_pwm_output s.1 s.2)
  | .disable => some (disable_pwm_output s.1 s.2)

/-- Execute a sequence of calls in order. -/
def Call.run (SystemCoreClock : Nat) : List Call → PWM_handle × HW → Option (PWM_handle × HW)
  | [], s => some s
  | c :: cs, s =>
    match c.exec SystemCoreClock s with
    | none => none
    | some s' => Call.run SystemCoreClock cs s'

/-- No call of the sequence, executed from `s`, lowers the handle's period
(only a re-initialization with a smaller resolution does). -/
def Call.noLowering (SystemCoreClock : Nat) : List Call → PWM_handle × HW → Prop
  | [], _ => True
  | c :: cs, s =>
    match c.exec SystemCoreClock s with
    | none => True
    | some s' => s.1.period ≤ s'.1.period ∧ Call.noLowering SystemCoreClock cs s'

instance Call.decNoLowering (SystemCoreClock : Nat) (cs : List Call) (s : PWM_handle × HW) :
    Decidable (Call.noLowering SystemCoreClock cs s) := by
  induction cs generalizing s with
  | nil => exact isTrue trivial
  | cons c cs ih =>
    unfold Call.noLowering
    cases h : c.exec SystemCoreClock s with
    | none => exact isTrue trivial
    | some s' =>
      have := ih s'
      simp only
      infer_instance

/-- The call is `enable_pwm_output` or `disable_pwm_output`. -/
def Call.isEnableDisable : Call → Bool
  | .enable => true
  | .disable => true
  | _ => false

/-- The resolution an initialization call stores as the handle's period
(`none` for a call that is not an initialization): `iCount` for
`init_pwm_base`, and `iCount` with the default 254 for `init_pwm`. -/
def Call.resolution : Call → Option Nat
  | .initBase _ _ _ _ iCount _ => some iCount
  | .init _ _ _ _ iCount _ => some (if iCount ≠ 0 then iCount else 254)
  | _ => none

/-- The last call of the sequence other than `enable_pwm_output` and
`disable_pwm_output` is an initialization whose resolution `r` is too small
for the duty cycle the handle holds when it is called: `r + 1 < duty_cycle`.
The sequence is executed from `s`; `false` for a sequence with no such last
call, and for one that does not run to its end. -/
def Call.endsLowered (SystemCoreClock : Nat) : List Call → PWM_handle × HW → Bool
  | [], _ => false
  | c :: cs, s =>
    match c.exec SystemCoreClock s with
    | none => false
    | some s' =>
      if cs.all Call.isEnableDisable then
        match c.resolution with
        | some r => decide (r + 1 < s.1.duty_cycle)
        | none => false
      else Call.endsLowered SystemCoreClock cs s'

/-! ## Concrete handles, arguments and call sequences used in examples -/

/-- A handle as `init_pwm(&h, PWM_TIM1, PWM_CH1, 0xA8, 10000)` leaves it at a
144 MHz clock: default resolution 254, default mode. -/
def handle254 : PWM_handle :=
  { pwm_mode := PWM_MODE2, timer := PWM_TIM1, channel := PWM_CH1, prescaler := 56,
    period := 254, duty_cycle := 0 }

/-- A handle whose period is the largest `uint16_t` value. -/
def handleMaxPeriod : PWM_handle :=
  { pwm_mode := PWM_MODE2, timer := PWM_TIM1, channel := PWM_CH1, prescaler := 0,
    period := 65535, duty_cycle := 0 }

/-- Handle of `main` for pin PA6: timer 3, channel 1. -/
def handleA6 : PWM_handle :=
  { pwm_mode := PWM_MODE2, timer := PWM_TIM3, channel := PWM_CH1, prescaler := 28,
    period := 254, duty_cycle := 127 }

/-- Handle of `main` for pin PA7: timer 3, channel 2. -/
def handleA7 : PWM_handle :=
  { pwm_mode := PWM_MODE2, timer := PWM_TIM3, channel := PWM_CH2, prescaler := 28,
    period := 254, duty_cycle := 127 }

/-- The arguments `init_pwm(&h, PWM_TIM1, PWM_CH1, 0x18, 10000, 254, PWM_MODE2)`
on a zero-valued handle: port nibble 1 is not a port. -/
def argsInvalidPin : init_pwm_args :=
  { object := PWM_handle.zero, iTimer := PWM_TIM1, iChannel := PWM_CH1, u16Pin := 0x18,
    iF_base := 10000, iCount := 254, iPwm_mode := PWM_MODE2 }

/-- The arguments of `init_pwm(&h, PWM_TIM1, PWM_CH1, 0xA8, 10000, 254, PWM_MODE1)`
on a zero-valued handle. -/
def argsMode1 : init_pwm_args :=
  { object := PWM_handle.zero, iTimer := PWM_TIM1, iChannel := PWM_CH1, u16Pin := 0xA8,
    iF_base := 10000, iCount := 254, iPwm_mode := PWM_MODE1 }

/-- Peripheral state after the successful
`init_pwm(&h, PWM_TIM1, PWM_CH1, 0xA8, 10000)` from reset: port A and timer 1
clocked, pin 8 of port A in alternate-function mode, timebase of timer 1
programmed. -/
def hwAfterInitA8 : HW :=
  HW.reset
    |> RCC_APB2PeriphClockCmd .GPIOA true
    |> GPIO_Init .GPIOA 0x100
    |> RCC_APB2PeriphClockCmd .TIM1 true
    |> TIM_TimeBaseInit .TIM1
        { TIM_Period := 254, TIM_Prescaler := 56, TIM_ClockDivision := .DIV1,
          TIM_CounterMode := .Up }

/-- Initialize at resolution 254, request duty 0, re-initialize at
resolution 100. -/
def callsReinitLower : List Call :=
  [ .init PWM_TIM1 PWM_CH1 0xA8 10000 0 0,
    .setDuty 0,
    .init PWM_TIM1 PWM_CH1 0xA8 10000 100 0 ]

/-- Initialize, set duty cycles (one out of range), disable, re-initialize at
a higher resolution, enable. -/
def callsNoLowering : List Call :=
  [ .init PWM_TIM3 PWM_CH2 0xA7 20000 0 0,
    .setDuty 128,
    .disable,
    .setDuty 300,
    .initBase PWM_TIM3 PWM_CH2 0xA7 20000 1000 PWM_MODE2,
    .enable ]

/-- The state `callsNoLowering` ends in, from a zero-valued handle and reset
peripherals. -/
def stateNoLowering : PWM_handle × HW :=
  (Call.run 144000000 callsNoLowering (PWM_handle.zero, HW.reset)).getD
    (PWM_handle.zero, HW.reset)

/-- The calls of `main` for pin PA7 (initialize timer 3 channel 2, set duty
128), then enable, disable, and a duty update. -/
def callsDisableThenSet : List Call :=
  [ .init PWM_TIM3 PWM_CH2 0xA7 20000 0 0,
    .setDuty 128,
    .enable,
    .disable,
    .setDuty 128 ]

/-- The arguments of `init_pwm(&h, PWM_TIM1, PWM_CH1, 0xA8, 10000)` on a
zero-valued handle, as in `main`: resolution and mode are left out. -/
def argsDefaults : init_pwm_args :=
  { object := PWM_handle.zero, iTimer := PWM_TIM1, iChannel := PWM_CH1, u16Pin := 0xA8,
    iF_base := 10000, iCount := 0, iPwm_mode := 0 }

/-- Initialize at resolution 254, request duty 0, re-initialize at
resolution 100, request duty 50. -/
def callsReinitThenSet : List Call :=
  [ .init PWM_TIM1 PWM_CH1 0xA8 10000 0 0,
    .setDuty 0,
    .init PWM_TIM1 PWM_CH1 0xA8 10000 100 0,
    .setDuty 50 ]

/-- The state `callsReinitThenSet` ends in, from a zero-valued handle and
reset peripherals. -/
def stateReinitThenSet : PWM_handle × HW :=
  (Call.run 144000000 callsReinitThenSet (PWM_handle.zero, HW.reset)).getD
    (PWM_handle.zero, HW.reset)

/-- Initialize at resolution 254, request duty 200 (stores 55), re-initialize
at resolution 100, disable. -/
def callsReinitFits : List Call :=
  [ .init PWM_TIM1 PWM_CH1 0xA8 10000 0 0,
    .setDuty 200,
    .init PWM_TIM1 PWM_CH1 0xA8 10000 100 0,
    .disable ]

/-- The state `callsReinitFits` ends in, from a zero-valued handle and reset
peripherals. -/
def stateReinitFits : PWM_handle × HW :=
  (Call.run 144000000 callsReinitFits (PWM_handle.zero, HW.reset)).getD
    (PWM_handle.zero, HW.reset)

/-- The state `callsReinitLower` ends in, from a zero-valued handle and reset
peripherals. -/
def stateReinitLower : PWM_handle × HW :=
  (Call.run 144000000 callsReinitLower (PWM_handle.zero, HW.reset)).getD
    (PWM_handle.zero, HW.reset)

/-! # Lemmas -/

/-! ## Register updates -/

theorem HW.tim_setTim_same (hw : HW) (t : TIM_TypeDef) (r : TIM_Regs) :
    (hw.setTim t r).tim t = r := by
  cases t <;> rfl

theorem HW.tim_setTim_other (hw : HW) (t u : TIM_TypeDef) (r : TIM_Regs) (h : u ≠ t) :
    (hw.setTim t r).tim u = hw.tim u := by
  cases t <;> cases u <;> first | rfl | exact absurd rfl h

theorem HW.setTim_setTim (hw : HW) (t : TIM_TypeDef) (r r' : TIM_Regs) :
    (hw.setTim t r).setTim t r' = hw.setTim t r' := by
  cases t <;> rfl

theorem programChannel_eq (t : TIM_TypeDef) (c : OC_Unit) (i : TIM_OCInitTypeDef) (hw : HW) :
    programChannel t c i hw = hw.setTim t (programRegs c i (hw.tim t)) := by
  cases c <;>
  simp only [programChannel, TIM_OCxInit, TIM_OCxPreloadConfig, TIM_OC1Init, TIM_OC2Init,
    TIM_OC3Init, TIM_OC4Init, TIM_CtrlPWMOutputs, TIM_OC1PreloadConfig, TIM_OC2PreloadConfig,
    TIM_OC3PreloadConfig, TIM_OC4PreloadConfig, TIM_ARRPreloadConfig, HW.tim_setTim_same,
    HW.setTim_setTim, programRegs]

theorem programRegs_counterEnable (c : OC_Unit) (i : TIM_OCInitTypeDef) (r : TIM_Regs) :
    (programRegs c i r).counterEnable = r.counterEnable := by
  cases c <;> rfl

theorem programRegs_idem (c : OC_Unit) (i : TIM_OCInitTypeDef) (r : TIM_Regs) :
    programRegs c i (programRegs c i r) = programRegs c i r := by
  cases c <;> rfl

theorem programChannel_counterEnable (t u : TIM_TypeDef) (c : OC_Unit) (i : TIM_OCInitTypeDef)
    (hw : HW) :
    ((programChannel t c i hw).tim u).counterEnable = (hw.tim u).counterEnable := by
  rw [programChannel_eq]
  by_cases h : u = t
  · subst h
    rw [HW.tim_setTim_same, programRegs_counterEnable]
  · rw [HW.tim_setTim_other _ _ _ _ h]

theorem programChannel_idem (t : TIM_TypeDef) (c : OC_Unit) (i : TIM_OCInitTypeDef) (hw : HW) :
    programChannel t c i (programChannel t c i hw) = programChannel t c i hw := by
  rw [programChannel_eq t c i hw, programChannel_eq, HW.tim_setTim_same, HW.setTim_setTim,
    programRegs_idem]

theorem programLookup_counterEnable (timer channel : Nat) (u : TIM_TypeDef)
    (i : TIM_OCInitTypeDef) (hw : HW) :
    ((programLookup timer channel i hw).tim u).counterEnable = (hw.tim u).counterEnable := by
  unfold programLookup
  cases TIM_TypeDef.ofId timer with
  | none => rfl
  | some t =>
    cases OC_Unit.ofId channel with
    | none => rfl
    | some c => exact programChannel_counterEnable _ _ _ _ _

theorem programLookup_idem (timer channel : Nat) (i : TIM_OCInitTypeDef) (hw : HW) :
    programLookup timer channel i (programLookup timer channel i hw) =
      programLookup timer channel i hw := by
  unfold programLookup
  cases TIM_TypeDef.ofId timer with
  | none => rfl
  | some t =>
    cases OC_Unit.ofId channel with
    | none => rfl
    | some c => exact programChannel_idem _ _ _ _

theorem programRegs_unit_same (c : OC_Unit) (i : TIM_OCInitTypeDef) (r : TIM_Regs) :
    (programRegs c i r).unit c = { oc := some i, preload := false } := by
  cases c <;> rfl

theorem programRegs_unit_other (c d : OC_Unit) (i : TIM_OCInitTypeDef) (r : TIM_Regs)
    (h : d ≠ c) : (programRegs c i r).unit d = r.unit d := by
  cases c <;> cases d <;> first | rfl | exact absurd rfl h

theorem programRegs_flags (c : OC_Unit) (i : TIM_OCInitTypeDef) (r : TIM_Regs) :
    (programRegs c i r).mainOutputEnable = true ∧ (programRegs c i r).arrPreload = true ∧
    (programRegs c i r).timeBase = r.timeBase := by
  cases c <;> exact ⟨rfl, rfl, rfl⟩

theorem HW.setTim_frame (hw : HW) (t : TIM_TypeDef) (r : TIM_Regs) :
    (hw.setTim t r).gpioa = hw.gpioa ∧ (hw.setTim t r).gpiob = hw.gpiob ∧
    (hw.setTim t r).gpioc = hw.gpioc ∧ (hw.setTim t r).gpiod = hw.gpiod ∧
    (hw.setTim t r).rcc = hw.rcc := by
  cases t <;> exact ⟨rfl, rfl, rfl, rfl, rfl⟩

theorem programLookup_eq (timer channel : Nat) (t : TIM_TypeDef) (c : OC_Unit)
    (i : TIM_OCInitTypeDef) (hw : HW)
    (ht : TIM_TypeDef.ofId timer = some t) (hc : OC_Unit.ofId channel = some c) :
    programLookup timer channel i hw = programChannel t c i hw := by
  unfold programLookup
  rw [ht, hc]

/-! ## Facts about `set_pwm_dutycycle` -/

theorem set_pwm_dutycycle_handle (object : PWM_handle) (duty : Nat) (hw : HW) :
    (set_pwm_dutycycle object duty hw).1 =
      { object with
        duty_cycle :=
          ((-(((if duty > object.period + 1 then (object.period + 1) % U16 else duty % U16 : Nat)
              : Int) - ((object.period : Int) + 1))) % (U16 : Int)).toNat } := by
  rfl

theorem set_pwm_dutycycle_duty_cycle (object : PWM_handle) (duty : Nat) (hw : HW)
    (hd : duty < U16) :
    (set_pwm_dutycycle object duty hw).1.duty_cycle =
      (object.period + 1 - min duty (object.period + 1)) % U16 := by
  rw [set_pwm_dutycycle_handle]
  simp only [U16, Nat.cast_ofNat] at *
  by_cases h : duty > object.period + 1
  · simp only [h, if_true]
    omega
  · simp only [h, if_false]
    omega

theorem set_pwm_dutycycle_period (object : PWM_handle) (duty : Nat) (hw : HW) :
    (set_pwm_dutycycle object duty hw).1.period = object.period := by
  rw [set_pwm_dutycycle_handle]

theorem set_pwm_dutycycle_le (object : PWM_handle) (duty : Nat) (hw : HW) :
    (set_pwm_dutycycle object duty hw).1.duty_cycle ≤
      (set_pwm_dutycycle object duty hw).1.period + 1 := by
  rw [set_pwm_dutycycle_handle]
  simp only [U16, Nat.cast_ofNat]
  split <;> omega

/-- Every request above `period + 1` stores the compare value 0. -/
theorem set_pwm_dutycycle_above_range (object : PWM_handle) (duty : Nat) (hw : HW)
    (hd : duty < U16) (h : duty > object.period + 1) :
    (set_pwm_dutycycle object duty hw).1.duty_cycle = 0 := by
  rw [set_pwm_dutycycle_duty_cycle object duty hw hd]
  simp only [U16] at *
  omega

theorem set_pwm_dutycycle_hw (object : PWM_handle) (duty : Nat) (hw : HW) :
    (set_pwm_dutycycle object duty hw).2 =
      programLookup object.timer object.channel
        (ocInitOf (set_pwm_dutycycle object duty hw).1) hw := by
  obtain ⟨pm, t, c, ps, p, dc⟩ := object
  have ht : t = 1 ∨ t = 2 ∨ t = 3 ∨ t = 4 ∨ (t ≠ 1 ∧ t ≠ 2 ∧ t ≠ 3 ∧ t ≠ 4) := by omega
  have hc : c = 1 ∨ c = 2 ∨ c = 3 ∨ c = 4 ∨ (c ≠ 1 ∧ c ≠ 2 ∧ c ≠ 3 ∧ c ≠ 4) := by omega
  unfold set_pwm_dutycycle programLookup TIM_TypeDef.ofId OC_Unit.ofId
  rcases ht with rfl | rfl | rfl | rfl | ⟨t1, t2, t3, t4⟩ <;>
  rcases hc with rfl | rfl | rfl | rfl | ⟨c1, c2, c3, c4⟩ <;>
  first
  | rfl
  | simp [*]

theorem set_pwm_dutycycle_pulse (object : PWM_handle) (duty : Nat) (hw : HW)
    (ht : 1 ≤ object.timer ∧ object.timer ≤ 4)
    (hc : 1 ≤ object.channel ∧ object.channel ≤ 4) :
    HW.pulse (set_pwm_dutycycle object duty hw).2 object.timer object.channel =
      some (set_pwm_dutycycle object duty hw).1.duty_cycle := by
  obtain ⟨pm, t, c, ps, p, dc⟩ := object
  simp only at ht hc
  have ht' : t = 1 ∨ t = 2 ∨ t = 3 ∨ t = 4 := by omega
  have hc' : c = 1 ∨ c = 2 ∨ c = 3 ∨ c = 4 := by omega
  by_cases h : duty > p + 1 <;>
  rcases ht' with rfl | rfl | rfl | rfl <;>
  rcases hc' with rfl | rfl | rfl | rfl <;>
  simp [set_pwm_dutycycle, h, HW.pulse, TIM_TypeDef.ofId, TIM_Regs.ch, HW.tim, HW.setTim,
    TIM_OC1Init, TIM_OC2Init, TIM_OC3Init, TIM_OC4Init, TIM_CtrlPWMOutputs,
    TIM_OC1PreloadConfig, TIM_OC2PreloadConfig, TIM_OC3PreloadConfig, TIM_OC4PreloadConfig,
    TIM_ARRPreloadConfig]

theorem set_pwm_dutycycle_counterEnable (object : PWM_handle) (duty : Nat) (hw : HW)
    (t : TIM_TypeDef) :
    ((set_pwm_dutycycle object duty hw).2.tim t).counterEnable = (hw.tim t).counterEnable := by
  rw [set_pwm_dutycycle_hw]
  exact programLookup_counterEnable _ _ _ _ _

theorem set_pwm_dutycycle_handle_twice (object : PWM_handle) (duty : Nat) (hw hw' : HW) :
    (set_pwm_dutycycle (set_pwm_dutycycle object duty hw).1 duty hw').1 =
      (set_pwm_dutycycle object duty hw).1 := by
  rfl

/-! ## Facts about `init_pwm_base` and `var_init_pwm` -/

theorem init_pwm_base_invalid_pin (SystemCoreClock : Nat) (object : PWM_handle)
    (iTimer iChannel : Nat) (iPin : Int) (iF_base iCount iPwm_mode : Nat) (hw : HW)
    (hf : 0 < iF_base) (hc : 0 < iCount) (hpin : iPin < 0xa0 ∨ iPin > 0xdf) :
    init_pwm_base SystemCoreClock object iTimer iChannel iPin iF_base iCount iPwm_mode hw =
      some (init_pwm_base_handle SystemCoreClock object iTimer iChannel iF_base iCount
        iPwm_mode, hw, -1) := by
  have hc0 : iCount ≠ 0 := Nat.pos_iff_ne_zero.mp hc
  have hf0 : iF_base ≠ 0 := Nat.pos_iff_ne_zero.mp hf
  simp [init_pwm_base, init_pwm_base_handle, hc0, hf0, hpin]

theorem init_pwm_base_valid_pin (SystemCoreClock : Nat) (object : PWM_handle)
    (iTimer iChannel : Nat) (iPin : Int) (iF_base iCount iPwm_mode : Nat) (hw : HW)
    (hf : 0 < iF_base) (hc : 0 < iCount) (hpin : ¬ (iPin < 0xa0 ∨ iPin > 0xdf)) :
    ∃ hw', init_pwm_base SystemCoreClock object iTimer iChannel iPin iF_base iCount
        iPwm_mode hw =
      some (init_pwm_base_handle SystemCoreClock object iTimer iChannel iF_base iCount
        iPwm_mode, hw', 0) := by
  have hc0 : iCount ≠ 0 := Nat.pos_iff_ne_zero.mp hc
  have hf0 : iF_base ≠ 0 := Nat.pos_iff_ne_zero.mp hf
  simp only [init_pwm_base, init_pwm_base_handle, hc0, hf0, hpin, or_self, if_false]
  exact ⟨_, rfl⟩

theorem init_pwm_base_result_handle (SystemCoreClock : Nat) (object : PWM_handle)
    (iTimer iChannel : Nat) (iPin : Int) (iF_base iCount iPwm_mode : Nat) (hw : HW)
    (r : PWM_handle × HW × Int)
    (h : init_pwm_base SystemCoreClock object iTimer iChannel iPin iF_base iCount iPwm_mode hw =
      some r) :
    r.1 = init_pwm_base_handle SystemCoreClock object iTimer iChannel iF_base iCount
      iPwm_mode := by
  have hc : 0 < iCount := by
    rcases Nat.eq_zero_or_pos iCount with h0 | h0
    · simp [init_pwm_base, h0] at h
    · exact h0
  have hf : 0 < iF_base := by
    rcases Nat.eq_zero_or_pos iF_base with h0 | h0
    · simp [init_pwm_base, h0] at h
    · exact h0
  by_cases hpin : iPin < 0xa0 ∨ iPin > 0xdf
  · rw [init_pwm_base_invalid_pin _ _ _ _ _ _ _ _ _ hf hc hpin] at h
    simp only [Option.some.injEq] at h
    rw [← h]
  · obtain ⟨hw', e⟩ := init_pwm_base_valid_pin SystemCoreClock object iTimer iChannel iPin
      iF_base iCount iPwm_mode hw hf hc hpin
    rw [e] at h
    simp only [Option.some.injEq] at h
    rw [← h]

/-- A one-byte pin code has its port nibble outside `0xA .. 0xD` exactly when
it fails the range check of `init_pwm_base`. -/
theorem port_nibble_outside_iff (pin : Nat) (h : pin < 256) :
    (pin / 16 < 0xa ∨ 0xd < pin / 16) ↔ ((pin : Int) < 0xa0 ∨ (pin : Int) > 0xdf) := by
  omega

/-- No call of `var_init_pwm` leaves `PWM_MODE1` in the handle. -/
theorem var_init_pwm_never_mode1 (SystemCoreClock : Nat) (args : init_pwm_args) (hw : HW)
    (r : PWM_handle × HW × Int) (h : var_init_pwm SystemCoreClock args hw = some r) :
    r.1.pwm_mode ≠ PWM_MODE1 := by
  unfold var_init_pwm at h
  simp only [] at h
  have hc : 0 < (if args.iCount ≠ 0 then args.iCount else 254) := by
    split <;> omega
  have hf : 0 < args.iF_base := by
    rcases Nat.eq_zero_or_pos args.iF_base with h0 | h0
    · simp [init_pwm_base, h0] at h
    · exact h0
  have hm : (if args.iPwm_mode ≠ 0 then args.iPwm_mode else PWM_MODE2) ≠ PWM_MODE1 := by
    split <;> simp_all
  by_cases hpin : (args.u16Pin : Int) < 0xa0 ∨ (args.u16Pin : Int) > 0xdf
  · rw [init_pwm_base_invalid_pin _ _ _ _ _ _ _ _ _ hf hc hpin] at h
    simp only [Option.some.injEq] at h
    rw [← h]
    exact hm
  · obtain ⟨hw', e⟩ := init_pwm_base_valid_pin SystemCoreClock args.object args.iTimer
      args.iChannel args.u16Pin args.iF_base _ _ hw hf hc hpin
    rw [e] at h
    simp only [Option.some.injEq] at h
    rw [← h]
    exact hm

/-! ## Facts about call sequences -/

theorem Call.exec_preserves_bound (SystemCoreClock : Nat) (c : Call) (s s' : PWM_handle × HW)
    (hinv : s.1.duty_cycle ≤ s.1.period + 1)
    (hexec : c.exec SystemCoreClock s = some s')
    (hmono : s.1.period ≤ s'.1.period) :
    s'.1.duty_cycle ≤ s'.1.period + 1 := by
  have hdc : s'.1.duty_cycle = s.1.duty_cycle ∨ s'.1.duty_cycle ≤ s'.1.period + 1 := by
    cases c with
    | initBase iTimer iChannel iPin iF_base iCount iPwm_mode =>
      left
      simp only [Call.exec, Option.map_eq_some'] at hexec
      obtain ⟨r, hr, rfl⟩ := hexec
      rw [init_pwm_base_result_handle _ _ _ _ _ _ _ _ _ r hr]
      rfl
    | init iTimer iChannel u16Pin iF_base iCount iPwm_mode =>
      left
      simp only [Call.exec, Option.map_eq_some', var_init_pwm] at hexec
      obtain ⟨r, hr, rfl⟩ := hexec
      rw [init_pwm_base_result_handle _ _ _ _ _ _ _ _ _ r hr]
      rfl
    | setDuty duty =>
      right
      simp only [Call.exec, Option.some.injEq] at hexec
      rw [← hexec]
      exact set_pwm_dutycycle_le _ _ _
    | enable =>
      left
      simp only [Call.exec, Option.some.injEq] at hexec
      rw [← hexec]
      rfl
    | disable =>
      left
      simp only [Call.exec, Option.some.injEq] at hexec
      rw [← hexec]
      rfl
  rcases hdc with h | h
  · omega
  · exact h

theorem Call.run_preserves_bound (SystemCoreClock : Nat) (cs : List Call) :
    ∀ s s' : PWM_handle × HW, s.1.duty_cycle ≤ s.1.period + 1 →
      Call.run SystemCoreClock cs s = some s' → Call.noLowering SystemCoreClock cs s →
      s'.1.duty_cycle ≤ s'.1.period + 1 := by
  induction cs with
  | nil =>
    intro s s' hinv hrun _
    simp only [Call.run, Option.some.injEq] at hrun
    rw [← hrun]
    exact hinv
  | cons c cs ih =>
    intro s s' hinv hrun hmono
    unfold Call.run at hrun
    unfold Call.noLowering at hmono
    cases hex : c.exec SystemCoreClock s with
    | none => simp [hex] at hrun
    | some s1 =>
      simp only [hex] at hrun hmono
      exact ih s1 s' (Call.exec_preserves_bound SystemCoreClock c s s1 hinv hex hmono.1)
        hrun hmono.2

/-- A sufficient condition for the bound: in every state reached from a
zero-valued handle by a sequence of calls in which no re-initialization lowers
the period, `0 <= duty_cycle <= period + 1`. -/
theorem duty_cycle_bound_of_no_lowering (SystemCoreClock : Nat) (hw0 : HW) (cs : List Call)
    (s : PWM_handle × HW)
    (hrun : Call.run SystemCoreClock cs (PWM_handle.zero, hw0) = some s)
    (hmono : Call.noLowering SystemCoreClock cs (PWM_handle.zero, hw0)) :
    0 ≤ s.1.duty_cycle ∧ s.1.duty_cycle ≤ s.1.period + 1 :=
  ⟨Nat.zero_le _,
   Call.run_preserves_bound SystemCoreClock cs (PWM_handle.zero, hw0) s (Nat.zero_le _) hrun hmono⟩

/-- Example of the sufficient condition: a sequence with an out-of-range duty
request and a re-initialization from resolution 254 to 1000. -/
theorem duty_cycle_bound_of_no_lowering_witness :
    Call.run 144000000 callsNoLowering (PWM_handle.zero, HW.reset) = some stateNoLowering ∧
    Call.noLowering 144000000 callsNoLowering (PWM_handle.zero, HW.reset) ∧
    stateNoLowering.1.period = 1000 ∧
    0 ≤ stateNoLowering.1.duty_cycle ∧
    stateNoLowering.1.duty_cycle ≤ stateNoLowering.1.period + 1 :=
  ⟨by decide, by decide, by decide,
   duty_cycle_bound_of_no_lowering 144000000 HW.reset callsNoLowering stateNoLowering
     (by decide) (by decide)⟩

theorem Call.exec_enableDisable (SystemCoreClock : Nat) (c : Call) (s s' : PWM_handle × HW)
    (hc : c.isEnableDisable = true) (hexec : c.exec SystemCoreClock s = some s') :
    s'.1 = s.1 := by
  cases c with
  | initBase iTimer iChannel iPin iF_base iCount iPwm_mode => simp [Call.isEnableDisable] at hc
  | init iTimer iChannel u16Pin iF_base iCount iPwm_mode => simp [Call.isEnableDisable] at hc
  | setDuty duty => simp [Call.isEnableDisable] at hc
  | enable =>
    simp only [Call.exec, Option.some.injEq] at hexec
    rw [← hexec]
    rfl
  | disable =>
    simp only [Call.exec, Option.some.injEq] at hexec
    rw [← hexec]
    rfl

theorem Call.exec_resolution (SystemCoreClock : Nat) (c : Call) (s s' : PWM_handle × HW)
    (r : Nat) (hr : c.resolution = some r) (hexec : c.exec SystemCoreClock s = some s') :
    s'.1.period = r ∧ s'.1.duty_cycle = s.1.duty_cycle := by
  cases c with
  | initBase iTimer iChannel iPin iF_base iCount iPwm_mode =>
    simp only [Call.resolution, Option.some.injEq] at hr
    simp only [Call.exec, Option.map_eq_some'] at hexec
    obtain ⟨q, hq, rfl⟩ := hexec
    rw [init_pwm_base_result_handle _ _ _ _ _ _ _ _ _ q hq, ← hr]
    exact ⟨rfl, rfl⟩
  | init iTimer iChannel u16Pin iF_base iCount iPwm_mode =>
    simp only [Call.resolution, Option.some.injEq] at hr
    simp only [Call.exec, Option.map_eq_some', var_init_pwm] at hexec
    obtain ⟨q, hq, rfl⟩ := hexec
    rw [init_pwm_base_result_handle _ _ _ _ _ _ _ _ _ q hq, ← hr]
    exact ⟨rfl, rfl⟩
  | setDuty duty => simp [Call.resolution] at hr
  | enable => simp [Call.resolution] at hr
  | disable => simp [Call.resolution] at hr

theorem Call.exec_other (SystemCoreClock : Nat) (c : Call) (s s' : PWM_handle × HW)
    (hc : c.isEnableDisable = false) (hr : c.resolution = none)
    (hexec : c.exec SystemCoreClock s = some s') :
    s'.1.duty_cycle ≤ s'.1.period + 1 := by
  cases c with
  | initBase iTimer iChannel iPin iF_base iCount iPwm_mode => simp [Call.resolution] at hr
  | init iTimer iChannel u16Pin iF_base iCount iPwm_mode => simp [Call.resolution] at hr
  | setDuty duty =>
    simp only [Call.exec, Option.some.injEq] at hexec
    rw [← hexec]
    exact set_pwm_dutycycle_le _ _ _
  | enable => simp [Call.isEnableDisable] at hc
  | disable => simp [Call.isEnableDisable] at hc

theorem Call.run_bound_iff (SystemCoreClock : Nat) (cs : List Call) :
    ∀ s s' : PWM_handle × HW, Call.run SystemCoreClock cs s = some s' →
      (s'.1.duty_cycle ≤ s'.1.period + 1 ↔
        if cs.all Call.isEnableDisable = true then s.1.duty_cycle ≤ s.1.period + 1
        else Call.endsLowered SystemCoreClock cs s = false) := by
  induction cs with
  | nil =>
    intro s s' hrun
    simp only [Call.run, Option.some.injEq] at hrun
    rw [← hrun]
    simp
  | cons c cs ih =>
    intro s s' hrun
    unfold Call.run at hrun
    cases hex : c.exec SystemCoreClock s with
    | none => simp [hex] at hrun
    | some s1 =>
      simp only [hex] at hrun
      have ih1 := ih s1 s' hrun
      by_cases hall : cs.all Call.isEnableDisable = true
      · rw [if_pos hall] at ih1
        by_cases hc : c.isEnableDisable = true
        · have hh := Call.exec_enableDisable SystemCoreClock c s s1 hc hex
          have hall' : (c :: cs).all Call.isEnableDisable = true := by
            simp only [List.all_cons, hc, hall, Bool.and_self]
          rw [if_pos hall', ih1, hh]
        · have hc' : c.isEnableDisable = false := by simpa using hc
          have hall' : ¬ ((c :: cs).all Call.isEnableDisable = true) := by
            simp only [List.all_cons, hc', Bool.false_and]
            decide
          rw [if_neg hall', ih1]
          unfold Call.endsLowered
          simp only [hex, hall, if_true]
          cases hr : c.resolution with
          | none =>
            simp only [iff_true]
            exact Call.exec_other SystemCoreClock c s s1 hc' hr hex
          | some r =>
            obtain ⟨hp, hd⟩ := Call.exec_resolution SystemCoreClock c s s1 r hr hex
            simp only [decide_eq_false_iff_not, not_lt]
            rw [hp, hd]
      · rw [if_neg hall] at ih1
        have hall' : ¬ ((c :: cs).all Call.isEnableDisable = true) := by
          simp only [List.all_cons, Bool.and_eq_true, not_and]
          intro _
          exact hall
        rw [if_neg hall', ih1]
        conv_rhs => unfold Call.endsLowered
        simp only [hex, hall]
        simp

theorem Call.endsLowered_of_all (SystemCoreClock : Nat) (cs : List Call)
    (s : PWM_handle × HW) (hall : cs.all Call.isEnableDisable = true) :
    Call.endsLowered SystemCoreClock cs s = false := by
  cases cs with
  | nil => rfl
  | cons c cs =>
    simp only [List.all_cons, Bool.and_eq_true] at hall
    unfold Call.endsLowered
    cases hex : c.exec SystemCoreClock s with
    | none => rfl
    | some s1 =>
      have hr : c.resolution = none := by
        cases c <;> simp_all [Call.isEnableDisable, Call.resolution]
      simp only [hall.2, if_true, hr]

/-! # Verified properties -/

/-! ## Duty-cycle mapping (C1) -/

/-- C1, counterexample.  With the largest period 65535 and a requested duty of
0 the claimed compare value `period + 1 - min(0, period + 1)` is 65536, but the
16-bit field `duty_cycle` holds 0 after `set_pwm_dutycycle`. -/
theorem set_pwm_dutycycle_max_period_wraps :
    handleMaxPeriod.wf ∧
    (set_pwm_dutycycle handleMaxPeriod 0 HW.reset).1.duty_cycle = 0 ∧
    handleMaxPeriod.period + 1 - min 0 (handleMaxPeriod.period + 1) = 65536 ∧
    (set_pwm_dutycycle handleMaxPeriod 0 HW.reset).1.duty_cycle ≠
      handleMaxPeriod.period + 1 - min 0 (handleMaxPeriod.period + 1) := by
  decide

/-- C1, amended.  For every handle and requested duty (16-bit values), the
compare value stored by `set_pwm_dutycycle` is
`(period + 1 - min(duty, period + 1)) mod 65536`; it is
`period + 1 - min(duty, period + 1)` itself unless `period = 65535` and
`duty = 0`, hence `period + 1 - duty` for every duty in `[0, period + 1]`
outside that one case; and for a timer and channel in 1..4 the stored value is
the pulse programmed into the channel. -/
theorem set_pwm_dutycycle_compare_value (object : PWM_handle) (duty : Nat) (hw : HW)
    (hp : object.period < U16) (hd : duty < U16) :
    (set_pwm_dutycycle object duty hw).1.duty_cycle =
        (object.period + 1 - min duty (object.period + 1)) % U16 ∧
    (object.period < 65535 ∨ 0 < duty →
      (set_pwm_dutycycle object duty hw).1.duty_cycle =
        object.period + 1 - min duty (object.period + 1)) ∧
    (object.period < 65535 ∨ 0 < duty → duty ≤ object.period + 1 →
      (set_pwm_dutycycle object duty hw).1.duty_cycle = object.period + 1 - duty) ∧
    (1 ≤ object.timer ∧ object.timer ≤ 4 → 1 ≤ object.channel ∧ object.channel ≤ 4 →
      HW.pulse (set_pwm_dutycycle object duty hw).2 object.timer object.channel =
        some (set_pwm_dutycycle object duty hw).1.duty_cycle) := by
  have key := set_pwm_dutycycle_duty_cycle object duty hw hd
  refine ⟨key, ?_, ?_, fun ht hc => set_pwm_dutycycle_pulse object duty hw ht hc⟩
  · intro h
    rw [key]
    simp only [U16] at *
    omega
  · intro h hle
    rw [key]
    simp only [U16] at *
    omega

/-- C1, witness: the scenarios of the specification at period 254
(191 -> 64, 128 -> 127, 51 -> 204, 0 -> 255, 255 -> 0). -/
theorem set_pwm_dutycycle_compare_value_witness :
    (set_pwm_dutycycle handle254 191 HW.reset).1.duty_cycle = 254 + 1 - 191 ∧
    (set_pwm_dutycycle handle254 128 HW.reset).1.duty_cycle = 254 + 1 - 128 ∧
    (set_pwm_dutycycle handle254 51 HW.reset).1.duty_cycle = 254 + 1 - 51 ∧
    (set_pwm_dutycycle handle254 0 HW.reset).1.duty_cycle = 254 + 1 - 0 ∧
    (set_pwm_dutycycle handle254 255 HW.reset).1.duty_cycle = 254 + 1 - 255 ∧
    HW.pulse (set_pwm_dutycycle handle254 191 HW.reset).2 1 1 = some 64 :=
  ⟨(set_pwm_dutycycle_compare_value handle254 191 HW.reset (by decide) (by decide)).2.2.1
      (Or.inl (by decide)) (by decide),
   (set_pwm_dutycycle_compare_value handle254 128 HW.reset (by decide) (by decide)).2.2.1
      (Or.inl (by decide)) (by decide),
   (set_pwm_dutycycle_compare_value handle254 51 HW.reset (by decide) (by decide)).2.2.1
      (Or.inl (by decide)) (by decide),
   (set_pwm_dutycycle_compare_value handle254 0 HW.reset (by decide) (by decide)).2.2.1
      (Or.inl (by decide)) (by decide),
   (set_pwm_dutycycle_compare_value handle254 255 HW.reset (by decide) (by decide)).2.2.1
      (Or.inl (by decide)) (by decide),
   by
    have h := (set_pwm_dutycycle_compare_value handle254 191 HW.reset (by decide)
      (by decide)).2.2.2 (by decide) (by decide)
    have e : (set_pwm_dutycycle handle254 191 HW.reset).1.duty_cycle = 64 := by decide
    rw [e] at h
    exact h⟩

/-! ## Pin validation (C2) -/

/-- C2.  For every timer, channel, mode, positive frequency and positive
resolution `init_pwm_base` returns, and its return value is `-1` exactly when
the pin code is below `0xa0` or above `0xdf`, and `0` for every pin code in
`0xa0 .. 0xdf`. -/
theorem init_pwm_base_return_value (SystemCoreClock : Nat) (object : PWM_handle)
    (iTimer iChannel : Nat) (iPin : Int) (iF_base iCount iPwm_mode : Nat) (hw : HW)
    (hf : 0 < iF_base) (hc : 0 < iCount) :
    ∃ object' hw' ret,
      init_pwm_base SystemCoreClock object iTimer iChannel iPin iF_base iCount iPwm_mode hw =
        some (object', hw', ret) ∧
      (ret = -1 ↔ (iPin < 0xa0 ∨ iPin > 0xdf)) ∧
      (0xa0 ≤ iPin ∧ iPin ≤ 0xdf → ret = 0) := by
  by_cases hpin : iPin < 0xa0 ∨ iPin > 0xdf
  · refine ⟨_, hw, -1, init_pwm_base_invalid_pin _ _ _ _ _ _ _ _ _ hf hc hpin, ?_, ?_⟩
    · simp [hpin]
    · intro h; omega
  · obtain ⟨hw', e⟩ := init_pwm_base_valid_pin SystemCoreClock object iTimer iChannel iPin
      iF_base iCount iPwm_mode hw hf hc hpin
    refine ⟨_, hw', 0, e, ?_, fun _ => rfl⟩
    simp [hpin]

/-- C2, witness: pin `0xA8` on timer 1 channel 1 at 10 kHz, resolution 254. -/
theorem init_pwm_base_return_value_witness :
    (0 < 10000 ∧ 0 < 254) ∧
    ∃ object' hw' ret,
      init_pwm_base 144000000 PWM_handle.zero 1 1 0xA8 10000 254 1 HW.reset =
        some (object', hw', ret) ∧
      (ret = -1 ↔ ((0xA8 : Int) < 0xa0 ∨ (0xA8 : Int) > 0xdf)) ∧
      (0xa0 ≤ (0xA8 : Int) ∧ (0xA8 : Int) ≤ 0xdf → ret = 0) :=
  ⟨by decide,
   init_pwm_base_return_value 144000000 PWM_handle.zero 1 1 0xA8 10000 254 1 HW.reset
     (by decide) (by decide)⟩

/-! ## Behaviour on an invalid pin (C3) -/

/-- C3, counterexample.  Pin code `0x18` (port nibble 1) on a zero-valued
handle: `init_pwm_base` and `var_init_pwm` return `-1`, yet the handle they
leave behind differs from the handle before the call (its mode, timer,
channel, prescaler and period have been written). -/
theorem init_pwm_base_invalid_pin_writes_handle :
    init_pwm_base 144000000 PWM_handle.zero PWM_TIM1 PWM_CH1 0x18 10000 254 PWM_MODE2 HW.reset =
      some ({ pwm_mode := 1, timer := 1, channel := 1, prescaler := 56, period := 254,
              duty_cycle := 0 }, HW.reset, -1) ∧
    var_init_pwm 144000000 argsInvalidPin HW.reset =
      some ({ pwm_mode := 1, timer := 1, channel := 1, prescaler := 56, period := 254,
              duty_cycle := 0 }, HW.reset, -1) ∧
    ({ pwm_mode := 1, timer := 1, channel := 1, prescaler := 56, period := 254,
       duty_cycle := 0 } : PWM_handle) ≠ PWM_handle.zero := by
  decide

/-- C3, amended.  For every handle and every pin code below `0xa0` or above
`0xdf` (every one-byte pin code whose port nibble is outside A..D), with
positive frequency and resolution, `init_pwm_base` returns `-1`, leaves the
peripheral state unchanged and leaves `duty_cycle` at its previous value;
`pwm_mode`, `timer`, `channel`, `period` and `prescaler` hold the requested
values, since they are written before the pin is validated.  The same holds
for `var_init_pwm`, with its defaults applied. -/
theorem init_pwm_invalid_pin_effect (SystemCoreClock : Nat) (object : PWM_handle)
    (iTimer iChannel : Nat) (iPin : Int) (iF_base iCount iPwm_mode : Nat) (hw : HW)
    (hf : 0 < iF_base) (hc : 0 < iCount) (hpin : iPin < 0xa0 ∨ iPin > 0xdf) :
    init_pwm_base SystemCoreClock object iTimer iChannel iPin iF_base iCount iPwm_mode hw =
      some ({ pwm_mode := iPwm_mode, timer := iTimer, channel := iChannel,
              prescaler := (SystemCoreClock / iCount / iF_base) % U16, period := iCount,
              duty_cycle := object.duty_cycle }, hw, -1) ∧
    ∀ args : init_pwm_args, 0 < args.iF_base →
      ((args.u16Pin : Int) < 0xa0 ∨ (args.u16Pin : Int) > 0xdf) →
      var_init_pwm SystemCoreClock args hw =
        some ({ pwm_mode := if args.iPwm_mode ≠ 0 then args.iPwm_mode else PWM_MODE2,
                timer := args.iTimer,
                channel := args.iChannel,
                prescaler :=
                  (SystemCoreClock / (if args.iCount ≠ 0 then args.iCount else 254) /
                    args.iF_base) % U16,
                period := if args.iCount ≠ 0 then args.iCount else 254,
                duty_cycle := args.object.duty_cycle }, hw, -1) := by
  constructor
  · rw [init_pwm_base_invalid_pin _ _ _ _ _ _ _ _ _ hf hc hpin]
    rfl
  · intro args haf hapin
    have hcount : 0 < (if args.iCount ≠ 0 then args.iCount else 254) := by
      split <;> omega
    unfold var_init_pwm
    simp only []
    rw [init_pwm_base_invalid_pin _ _ _ _ _ _ _ _ _ haf hcount hapin]
    rfl

/-- C3, witness: pin code `0x18` on a handle that already carries a duty
cycle, and through `var_init_pwm` on a zero-valued handle. -/
theorem init_pwm_invalid_pin_effect_witness :
    init_pwm_base 144000000 (set_pwm_dutycycle handle254 191 HW.reset).1 PWM_TIM3 PWM_CH2
        0x18 20000 100 PWM_MODE2 HW.reset =
      some ({ pwm_mode := PWM_MODE2, timer := PWM_TIM3, channel := PWM_CH2,
              prescaler := (144000000 / 100 / 20000) % U16, period := 100,
              duty_cycle := (set_pwm_dutycycle handle254 191 HW.reset).1.duty_cycle },
            HW.reset, -1) ∧
    var_init_pwm 144000000 argsInvalidPin HW.reset =
      some ({ pwm_mode :=
                if argsInvalidPin.iPwm_mode ≠ 0 then argsInvalidPin.iPwm_mode else PWM_MODE2,
              timer := argsInvalidPin.iTimer,
              channel := argsInvalidPin.iChannel,
              prescaler :=
                (144000000 / (if argsInvalidPin.iCount ≠ 0 then argsInvalidPin.iCount else 254) /
                  argsInvalidPin.iF_base) % U16,
              period := if argsInvalidPin.iCount ≠ 0 then argsInvalidPin.iCount else 254,
              duty_cycle := argsInvalidPin.object.duty_cycle }, HW.reset, -1) :=
  ⟨(init_pwm_invalid_pin_effect 144000000 (set_pwm_dutycycle handle254 191 HW.reset).1
      PWM_TIM3 PWM_CH2 0x18 20000 100 PWM_MODE2 HW.reset (by decide) (by decide)
      (Or.inl (by decide))).1,
   (init_pwm_invalid_pin_effect 144000000 (set_pwm_dutycycle handle254 191 HW.reset).1
      PWM_TIM3 PWM_CH2 0x18 20000 100 PWM_MODE2 HW.reset (by decide) (by decide)
      (Or.inl (by decide))).2 argsInvalidPin (by decide) (Or.inl (by decide))⟩

/-! ## Prescaler (C4) -/

/-- C4, counterexample.  At a 144 MHz clock, resolution 254 and frequency 1 Hz
on the valid pin `0xA8` the initialization succeeds, the quotient
`floor(floor(clock / resolution) / frequency)` is 566929, and the 16-bit
prescaler field holds 42641. -/
theorem prescaler_field_truncated :
    (init_pwm_base 144000000 PWM_handle.zero PWM_TIM1 PWM_CH1 0xA8 1 254 PWM_MODE2 HW.reset).map
        (fun r => (r.1.prescaler, r.2.2)) = some (42641, 0) ∧
    144000000 / 254 / 1 = 566929 ∧
    (init_pwm_base 144000000 PWM_handle.zero PWM_TIM1 PWM_CH1 0xA8 1 254 PWM_MODE2 HW.reset).map
        (fun r => r.1.prescaler) ≠ some (144000000 / 254 / 1) := by
  decide

/-- C4, amended.  After a successful initialization the prescaler field equals
`floor(floor(clock / resolution) / frequency) mod 65536`, which is the quotient
itself whenever the quotient is below 65536. -/
theorem init_pwm_base_prescaler (SystemCoreClock : Nat) (object : PWM_handle)
    (iTimer iChannel : Nat) (iPin : Int) (iF_base iCount iPwm_mode : Nat) (hw : HW)
    (object' : PWM_handle) (hw' : HW)
    (hinit : init_pwm_base SystemCoreClock object iTimer iChannel iPin iF_base iCount
      iPwm_mode hw = some (object', hw', 0)) :
    object'.prescaler = (SystemCoreClock / iCount / iF_base) % U16 ∧
    (SystemCoreClock / iCount / iF_base < U16 →
      object'.prescaler = SystemCoreClock / iCount / iF_base) := by
  have hc : 0 < iCount := by
    rcases Nat.eq_zero_or_pos iCount with h | h
    · simp [init_pwm_base, h] at hinit
    · exact h
  have hf : 0 < iF_base := by
    rcases Nat.eq_zero_or_pos iF_base with h | h
    · simp [init_pwm_base, h] at hinit
    · exact h
  have hp : object'.prescaler = (SystemCoreClock / iCount / iF_base) % U16 := by
    by_cases hpin : iPin < 0xa0 ∨ iPin > 0xdf
    · rw [init_pwm_base_invalid_pin _ _ _ _ _ _ _ _ _ hf hc hpin] at hinit
      simp at hinit
    · obtain ⟨hw'', e⟩ := init_pwm_base_valid_pin SystemCoreClock object iTimer iChannel iPin
        iF_base iCount iPwm_mode hw hf hc hpin
      rw [e] at hinit
      simp only [Option.some.injEq, Prod.mk.injEq] at hinit
      rw [← hinit.1]
      rfl
  exact ⟨hp, fun hlt => by rw [hp]; exact Nat.mod_eq_of_lt hlt⟩

/-- C4, witness: clock 144,000,000 Hz, resolution 254, frequency 10,000 Hz
gives prescaler 56. -/
theorem init_pwm_base_prescaler_witness :
    init_pwm_base 144000000 PWM_handle.zero PWM_TIM1 PWM_CH1 0xA8 10000 254 PWM_MODE2 HW.reset =
      some (handle254, hwAfterInitA8, 0) ∧
    handle254.prescaler = 144000000 / 254 / 10000 ∧
    144000000 / 254 / 10000 = 56 :=
  ⟨by decide,
   (init_pwm_base_prescaler 144000000 PWM_handle.zero PWM_TIM1 PWM_CH1 0xA8 10000 254
      PWM_MODE2 HW.reset handle254 hwAfterInitA8 (by decide)).2 (by decide),
   by decide⟩

/-! ## Mode selection through `init_pwm` (C5) -/

/-- C5, failing input.  `init_pwm(&h, PWM_TIM1, PWM_CH1, 0xA8, 10000, 254, PWM_MODE1)`
succeeds (returns 0), but the handle's mode is `PWM_MODE2`, not the requested
`PWM_MODE1`: `PWM_MODE1` is 0 and `var_init_pwm` replaces a zero mode by its
default. -/
theorem var_init_pwm_mode1_request_yields_mode2 :
    argsMode1.iPwm_mode = PWM_MODE1 ∧
    (var_init_pwm 144000000 argsMode1 HW.reset).map (fun r => (r.1.pwm_mode, r.2.2)) =
      some (PWM_MODE2, 0) ∧
    PWM_MODE2 ≠ PWM_MODE1 := by
  decide

/-! ## Out-of-range duty requests (C6) -/

/-- C6, failing input.  At period 254 the out-of-range request 300 stores the
compare value 0, the value stored for the request `period + 1 = 255` (maximum
on-time); the request 0 stores 255 (minimum on-time). -/
theorem set_pwm_dutycycle_out_of_range_is_full_on :
    300 > handle254.period + 1 ∧
    (set_pwm_dutycycle handle254 300 HW.reset).1.duty_cycle = 0 ∧
    (set_pwm_dutycycle handle254 255 HW.reset).1.duty_cycle = 0 ∧
    (set_pwm_dutycycle handle254 0 HW.reset).1.duty_cycle = 255 ∧
    (set_pwm_dutycycle handle254 300 HW.reset).1.duty_cycle ≠
      (set_pwm_dutycycle handle254 0 HW.reset).1.duty_cycle := by
  decide

/-! ## The duty-cycle bound along call sequences (C7) -/

/-- C7, counterexample.  From a zero-valued handle: initialize at the default
resolution 254, request duty 0 (stores 255), re-initialize at resolution 100.
The handle then has period 100 and duty_cycle 255, which exceeds
`period + 1 = 101`. -/
theorem reinit_lower_resolution_breaks_bound :
    (Call.run 144000000 callsReinitLower (PWM_handle.zero, HW.reset)).map
        (fun s => (s.1.period, s.1.duty_cycle)) = some (100, 255) ∧
    ¬ (255 ≤ 100 + 1) := by
  decide

/-- C7, amended.  In every state reached from a zero-valued handle by a finite
sequence of initialization (including re-initialization with a different
resolution), `set_pwm_dutycycle`, `enable_pwm_output` and `disable_pwm_output`
calls, `0 <= duty_cycle <= period + 1` holds except in exactly one case: the
last call of the sequence other than `enable_pwm_output` and
`disable_pwm_output` is an initialization whose resolution `r` satisfies
`r + 1 < duty_cycle` for the duty cycle the handle holds at that call. -/
theorem duty_cycle_bound_iff_not_lowered (SystemCoreClock : Nat) (hw0 : HW) (cs : List Call)
    (s : PWM_handle × HW)
    (hrun : Call.run SystemCoreClock cs (PWM_handle.zero, hw0) = some s) :
    (0 ≤ s.1.duty_cycle ∧ s.1.duty_cycle ≤ s.1.period + 1) ↔
      Call.endsLowered SystemCoreClock cs (PWM_handle.zero, hw0) = false := by
  have key := Call.run_bound_iff SystemCoreClock cs (PWM_handle.zero, hw0) s hrun
  have hzero : (PWM_handle.zero, hw0).1.duty_cycle ≤ (PWM_handle.zero, hw0).1.period + 1 :=
    Nat.zero_le _
  constructor
  · intro hb
    by_cases hall : cs.all Call.isEnableDisable = true
    · exact Call.endsLowered_of_all SystemCoreClock cs _ hall
    · rw [if_neg hall] at key
      exact key.mp hb.2
  · intro hl
    refine ⟨Nat.zero_le _, ?_⟩
    by_cases hall : cs.all Call.isEnableDisable = true
    · rw [if_pos hall] at key
      exact key.mpr hzero
    · rw [if_neg hall] at key
      exact key.mpr hl

/-- C7, witness.  Re-initialization from resolution 254 to 100 followed by a
duty update (period 100, duty_cycle 51), and re-initialization to 100 while
the stored duty cycle 55 fits: the bound holds.  Re-initialization to 100
while the stored duty cycle is 255: the bound fails. -/
theorem duty_cycle_bound_iff_not_lowered_witness :
    Call.run 144000000 callsReinitThenSet (PWM_handle.zero, HW.reset) =
        some stateReinitThenSet ∧
    (stateReinitThenSet.1.period, stateReinitThenSet.1.duty_cycle) = (100, 51) ∧
    (0 ≤ stateReinitThenSet.1.duty_cycle ∧
      stateReinitThenSet.1.duty_cycle ≤ stateReinitThenSet.1.period + 1) ∧
    Call.run 144000000 callsReinitFits (PWM_handle.zero, HW.reset) = some stateReinitFits ∧
    (stateReinitFits.1.period, stateReinitFits.1.duty_cycle) = (100, 55) ∧
    (0 ≤ stateReinitFits.1.duty_cycle ∧
      stateReinitFits.1.duty_cycle ≤ stateReinitFits.1.period + 1) ∧
    Call.run 144000000 callsReinitLower (PWM_handle.zero, HW.reset) = some stateReinitLower ∧
    Call.endsLowered 144000000 callsReinitLower (PWM_handle.zero, HW.reset) = true ∧
    ¬ (0 ≤ stateReinitLower.1.duty_cycle ∧
      stateReinitLower.1.duty_cycle ≤ stateReinitLower.1.period + 1) :=
  ⟨by decide, by decide,
   (duty_cycle_bound_iff_not_lowered 144000000 HW.reset callsReinitThenSet stateReinitThenSet
      (by decide)).mpr (by decide),
   by decide, by decide,
   (duty_cycle_bound_iff_not_lowered 144000000 HW.reset callsReinitFits stateReinitFits
      (by decide)).mpr (by decide),
   by decide, by decide,
   fun h => absurd
     ((duty_cycle_bound_iff_not_lowered 144000000 HW.reset callsReinitLower stateReinitLower
        (by decide)).mp h) (by decide)⟩

/-! ## Restarting after a disable (C8) -/

/-- C8, failing input.  After `enable_pwm_output` the counter of timer 3 runs;
`disable_pwm_output` stops it; the following `set_pwm_dutycycle(h, 128)`
asserts main-output-enable but leaves the counter-enable flag cleared, so the
counter is not running again. -/
theorem set_pwm_dutycycle_after_disable_counter_stopped :
    (Call.run 144000000 (callsDisableThenSet.take 3) (PWM_handle.zero, HW.reset)).map
        (fun s => (s.2.tim .TIM3).counterEnable) = some true ∧
    (Call.run 144000000 (callsDisableThenSet.take 4) (PWM_handle.zero, HW.reset)).map
        (fun s => (s.2.tim .TIM3).counterEnable) = some false ∧
    (Call.run 144000000 callsDisableThenSet (PWM_handle.zero, HW.reset)).map
        (fun s => ((s.2.tim .TIM3).counterEnable, (s.2.tim .TIM3).mainOutputEnable)) =
      some (false, true) := by
  decide

/-! ## Enable and disable act on the timer (C9) -/

/-- C9.  For a handle whose timer number selects the register block `t`,
`enable_pwm_output` and `disable_pwm_output` return the handle unchanged, set
(resp. clear) the counter-enable flag of `t`, change nothing else of `t`, of
any other timer, of the ports or of the clock gates, and have the same effect
for every other handle with the same timer number, whatever its channel. -/
theorem enable_disable_pwm_output_timer_only (object : PWM_handle) (hw : HW) (t : TIM_TypeDef)
    (ht : TIM_TypeDef.ofId object.timer = some t) :
    (enable_pwm_output object hw).1 = object ∧
    (disable_pwm_output object hw).1 = object ∧
    ((enable_pwm_output object hw).2.tim t).counterEnable = true ∧
    ((disable_pwm_output object hw).2.tim t).counterEnable = false ∧
    (enable_pwm_output object hw).2 = hw.setTim t { hw.tim t with counterEnable := true } ∧
    (disable_pwm_output object hw).2 = hw.setTim t { hw.tim t with counterEnable := false } ∧
    (∀ u : TIM_TypeDef, u ≠ t →
      (enable_pwm_output object hw).2.tim u = hw.tim u ∧
      (disable_pwm_output object hw).2.tim u = hw.tim u) ∧
    (∀ sibling : PWM_handle, sibling.timer = object.timer →
      (enable_pwm_output sibling hw).2 = (enable_pwm_output object hw).2 ∧
      (disable_pwm_output sibling hw).2 = (disable_pwm_output object hw).2 ∧
      ((disable_pwm_output sibling hw).2.tim t).counterEnable = false) := by
  have hen : (enable_pwm_output object hw).2 =
      hw.setTim t { hw.tim t with counterEnable := true } := by
    unfold TIM_TypeDef.ofId at ht
    unfold enable_pwm_output
    split_ifs at ht with h1 h2 h3 h4 <;> cases ht <;> simp [*, TIM_Cmd]
  have hdis : (disable_pwm_output object hw).2 =
      hw.setTim t { hw.tim t with counterEnable := false } := by
    unfold TIM_TypeDef.ofId at ht
    unfold disable_pwm_output
    split_ifs at ht with h1 h2 h3 h4 <;> cases ht <;> simp [*, TIM_Cmd]
  have hsib : ∀ sibling : PWM_handle, sibling.timer = object.timer →
      (enable_pwm_output sibling hw).2 = (enable_pwm_output object hw).2 ∧
      (disable_pwm_output sibling hw).2 = (disable_pwm_output object hw).2 := by
    intro sibling hs
    unfold enable_pwm_output disable_pwm_output
    simp only [hs, and_self]
  refine ⟨rfl, rfl, ?_, ?_, hen, hdis, ?_, ?_⟩
  · rw [hen, HW.tim_setTim_same]
  · rw [hdis, HW.tim_setTim_same]
  · intro u hu
    rw [hen, hdis, HW.tim_setTim_other _ _ _ _ hu, HW.tim_setTim_other _ _ _ _ hu]
    exact ⟨rfl, rfl⟩
  · intro sibling hs
    refine ⟨(hsib sibling hs).1, (hsib sibling hs).2, ?_⟩
    rw [(hsib sibling hs).2, hdis, HW.tim_setTim_same]

/-- C9, witness: the two handles of `main` that share timer 3; disabling
through the PA7 handle clears the counter-enable flag the PA6 handle relies
on. -/
theorem enable_disable_pwm_output_timer_only_witness :
    TIM_TypeDef.ofId handleA7.timer = some .TIM3 ∧
    handleA6.timer = handleA7.timer ∧
    handleA6.channel ≠ handleA7.channel ∧
    (disable_pwm_output handleA6 (enable_pwm_output handleA6 HW.reset).2).2 =
      (disable_pwm_output handleA7 (enable_pwm_output handleA6 HW.reset).2).2 ∧
    ((disable_pwm_output handleA6 (enable_pwm_output handleA6 HW.reset).2).2.tim
      .TIM3).counterEnable = false :=
  ⟨by decide, by decide, by decide,
   ((enable_disable_pwm_output_timer_only handleA7 (enable_pwm_output handleA6 HW.reset).2
      .TIM3 (by decide)).2.2.2.2.2.2.2 handleA6 (by decide)).2.1,
   ((enable_disable_pwm_output_timer_only handleA7 (enable_pwm_output handleA6 HW.reset).2
      .TIM3 (by decide)).2.2.2.2.2.2.2 handleA6 (by decide)).2.2⟩

/-! ## Idempotence of the duty update (C10) -/

/-- C10.  Calling `set_pwm_dutycycle` a second time with the same duty leaves
the handle and the peripheral state exactly as the first call left them. -/
theorem set_pwm_dutycycle_idempotent (object : PWM_handle) (duty : Nat) (hw : HW) :
    set_pwm_dutycycle (set_pwm_dutycycle object duty hw).1 duty
        (set_pwm_dutycycle object duty hw).2 =
      set_pwm_dutycycle object duty hw := by
  apply Prod.ext
  · exact set_pwm_dutycycle_handle_twice object duty hw _
  · rw [set_pwm_dutycycle_hw, set_pwm_dutycycle_handle_twice]
    rw [set_pwm_dutycycle_hw object duty hw]
    exact programLookup_idem _ _ _ _

/-! ## Defaults of `init_pwm` (C11) -/

/-- C11.  For every call of `var_init_pwm` with a pin code in `0xa0 .. 0xdf`
and a positive frequency, the call returns 0 and leaves a handle whose period
is 254 when `iCount` is omitted (zero) and `iCount` otherwise, whose mode is
`PWM_MODE2` when `iPwm_mode` is omitted (zero), whose timer and channel are
the requested ones, and whose `duty_cycle` is the one the handle had before
(zero for a zero-valued handle). -/
theorem var_init_pwm_defaults (SystemCoreClock : Nat) (args : init_pwm_args) (hw : HW)
    (hpin : 0xa0 ≤ args.u16Pin ∧ args.u16Pin ≤ 0xdf) (hf : 0 < args.iF_base) :
    ∃ object' hw',
      var_init_pwm SystemCoreClock args hw = some (object', hw', 0) ∧
      (args.iCount = 0 → object'.period = 254) ∧
      (args.iCount ≠ 0 → object'.period = args.iCount) ∧
      (args.iPwm_mode = 0 → object'.pwm_mode = PWM_MODE2) ∧
      object'.timer = args.iTimer ∧
      object'.channel = args.iChannel ∧
      object'.duty_cycle = args.object.duty_cycle ∧
      (args.object = PWM_handle.zero → object'.duty_cycle = 0) := by
  have hcount : 0 < (if args.iCount ≠ 0 then args.iCount else 254) := by
    split <;> omega
  have hvalid : ¬ ((args.u16Pin : Int) < 0xa0 ∨ (args.u16Pin : Int) > 0xdf) := by
    omega
  obtain ⟨hw', e⟩ := init_pwm_base_valid_pin SystemCoreClock args.object args.iTimer
    args.iChannel args.u16Pin args.iF_base (if args.iCount ≠ 0 then args.iCount else 254)
    (if args.iPwm_mode ≠ 0 then args.iPwm_mode else PWM_MODE2) hw hf hcount hvalid
  refine ⟨_, hw', e, ?_, ?_, ?_, rfl, rfl, rfl, ?_⟩
  · intro h0
    simp [init_pwm_base_handle, h0]
  · intro h0
    simp [init_pwm_base_handle, h0]
  · intro h0
    simp [init_pwm_base_handle, h0]
  · intro hz
    simp [init_pwm_base_handle, hz, PWM_handle.zero]

/-- C11, witness: `init_pwm(&h, PWM_TIM1, PWM_CH1, 0xA8, 10000)` of `main`. -/
theorem var_init_pwm_defaults_witness :
    (0xa0 ≤ argsDefaults.u16Pin ∧ argsDefaults.u16Pin ≤ 0xdf) ∧ 0 < argsDefaults.iF_base ∧
    var_init_pwm 144000000 argsDefaults HW.reset = some (handle254, hwAfterInitA8, 0) ∧
    ∃ object' hw',
      var_init_pwm 144000000 argsDefaults HW.reset = some (object', hw', 0) ∧
      (argsDefaults.iCount = 0 → object'.period = 254) ∧
      (argsDefaults.iCount ≠ 0 → object'.period = argsDefaults.iCount) ∧
      (argsDefaults.iPwm_mode = 0 → object'.pwm_mode = PWM_MODE2) ∧
      object'.timer = argsDefaults.iTimer ∧
      object'.channel = argsDefaults.iChannel ∧
      object'.duty_cycle = argsDefaults.object.duty_cycle ∧
      (argsDefaults.object = PWM_handle.zero → object'.duty_cycle = 0) :=
  ⟨by decide, by decide, by decide,
   var_init_pwm_defaults 144000000 argsDefaults HW.reset (by decide) (by decide)⟩

/-! ## The switch as a table lookup (C12) -/

/-- C12.  For every handle whose timer number selects the register block `t`
and whose channel number selects the output-compare unit `c`, the peripheral
state after `set_pwm_dutycycle` is the one the table lookup on
(timer, channel) produces: unit `c` of timer `t` is programmed with the
stored compare value as pulse, mode PWM1 when `pwm_mode` is `PWM_MODE1` and
PWM2 otherwise, polarity high and output enabled; then main-output-enable of
`t` is set, the compare preload of unit `c` is off and the auto-reload preload
of `t` is on.  The counter-enable flag and timebase of `t`, the other three
units of `t`, every other timer, the ports and the clock gates are as
before. -/
theorem set_pwm_dutycycle_table_lookup (object : PWM_handle) (duty : Nat) (hw : HW)
    (t : TIM_TypeDef) (c : OC_Unit)
    (ht : TIM_TypeDef.ofId object.timer = some t)
    (hc : OC_Unit.ofId object.channel = some c) :
    (set_pwm_dutycycle object duty hw).2 =
        programLookup object.timer object.channel
          { TIM_OCMode := if object.pwm_mode = PWM_MODE1 then .PWM1 else .PWM2
            TIM_OutputState := true
            TIM_Pulse := (set_pwm_dutycycle object duty hw).1.duty_cycle
            TIM_OCPolarity := .High } hw ∧
    (set_pwm_dutycycle object duty hw).2 =
        (hw |> TIM_OCxInit c t
                { TIM_OCMode := if object.pwm_mode = PWM_MODE1 then .PWM1 else .PWM2
                  TIM_OutputState := true
                  TIM_Pulse := (set_pwm_dutycycle object duty hw).1.duty_cycle
                  TIM_OCPolarity := .High }
            |> TIM_CtrlPWMOutputs t true
            |> TIM_OCxPreloadConfig c t false
            |> TIM_ARRPreloadConfig t true) ∧
    ((set_pwm_dutycycle object duty hw).2.tim t).unit c =
        { oc := some
            { TIM_OCMode := if object.pwm_mode = PWM_MODE1 then .PWM1 else .PWM2
              TIM_OutputState := true
              TIM_Pulse := (set_pwm_dutycycle object duty hw).1.duty_cycle
              TIM_OCPolarity := .High }
          preload := false } ∧
    ((set_pwm_dutycycle object duty hw).2.tim t).mainOutputEnable = true ∧
    ((set_pwm_dutycycle object duty hw).2.tim t).arrPreload = true ∧
    ((set_pwm_dutycycle object duty hw).2.tim t).counterEnable = (hw.tim t).counterEnable ∧
    ((set_pwm_dutycycle object duty hw).2.tim t).timeBase = (hw.tim t).timeBase ∧
    (∀ d : OC_Unit, d ≠ c →
      ((set_pwm_dutycycle object duty hw).2.tim t).unit d = (hw.tim t).unit d) ∧
    (∀ u : TIM_TypeDef, u ≠ t → (set_pwm_dutycycle object duty hw).2.tim u = hw.tim u) ∧
    (set_pwm_dutycycle object duty hw).2.gpioa = hw.gpioa ∧
    (set_pwm_dutycycle object duty hw).2.gpiob = hw.gpiob ∧
    (set_pwm_dutycycle object duty hw).2.gpioc = hw.gpioc ∧
    (set_pwm_dutycycle object duty hw).2.gpiod = hw.gpiod ∧
    (set_pwm_dutycycle object duty hw).2.rcc = hw.rcc := by
  have hlook := set_pwm_dutycycle_hw object duty hw
  have hchan : (set_pwm_dutycycle object duty hw).2 =
      programChannel t c (ocInitOf (set_pwm_dutycycle object duty hw).1) hw := by
    rw [hlook, programLookup_eq _ _ t c _ _ ht hc]
  have hregs : (set_pwm_dutycycle object duty hw).2 =
      hw.setTim t (programRegs c (ocInitOf (set_pwm_dutycycle object duty hw).1) (hw.tim t)) := by
    rw [hchan, programChannel_eq]
  have hflags := programRegs_flags c (ocInitOf (set_pwm_dutycycle object duty hw).1) (hw.tim t)
  have hframe := HW.setTim_frame hw t
    (programRegs c (ocInitOf (set_pwm_dutycycle object duty hw).1) (hw.tim t))
  refine ⟨hlook, hchan, ?_, ?_, ?_, ?_, ?_, ?_, ?_, ?_, ?_, ?_, ?_, ?_⟩
  · rw [hregs, HW.tim_setTim_same, programRegs_unit_same]
    rfl
  · rw [hregs, HW.tim_setTim_same]
    exact hflags.1
  · rw [hregs, HW.tim_setTim_same]
    exact hflags.2.1
  · rw [hregs, HW.tim_setTim_same, programRegs_counterEnable]
  · rw [hregs, HW.tim_setTim_same]
    exact hflags.2.2
  · intro d hd
    rw [hregs, HW.tim_setTim_same, programRegs_unit_other _ _ _ _ hd]
  · intro u hu
    rw [hregs, HW.tim_setTim_other _ _ _ _ hu]
  · rw [hregs]; exact hframe.1
  · rw [hregs]; exact hframe.2.1
  · rw [hregs]; exact hframe.2.2.1
  · rw [hregs]; exact hframe.2.2.2.1
  · rw [hregs]; exact hframe.2.2.2.2

/-- C12, witness: timer 1, channel 1 at period 254 with duty 191 programs
unit 1 of timer 1 with pulse 64 in mode PWM2 and leaves timer 3 untouched. -/
theorem set_pwm_dutycycle_table_lookup_witness :
    TIM_TypeDef.ofId handle254.timer = some .TIM1 ∧
    OC_Unit.ofId handle254.channel = some .CH1 ∧
    ((set_pwm_dutycycle handle254 191 hwAfterInitA8).2.tim .TIM1).unit .CH1 =
        { oc := some
            { TIM_OCMode := if handle254.pwm_mode = PWM_MODE1 then .PWM1 else .PWM2
              TIM_OutputState := true
              TIM_Pulse := (set_pwm_dutycycle handle254 191 hwAfterInitA8).1.duty_cycle
              TIM_OCPolarity := .High }
          preload := false } ∧
    (set_pwm_dutycycle handle254 191 hwAfterInitA8).1.duty_cycle = 64 ∧
    ((set_pwm_dutycycle handle254 191 hwAfterInitA8).2.tim .TIM1).mainOutputEnable = true ∧
    (set_pwm_dutycycle handle254 191 hwAfterInitA8).2.tim .TIM3 = hwAfterInitA8.tim .TIM3 :=
  ⟨by decide, by decide,
   (set_pwm_dutycycle_table_lookup handle254 191 hwAfterInitA8 .TIM1 .CH1 (by decide)
      (by decide)).2.2.1,
   by decide,
   (set_pwm_dutycycle_table_lookup handle254 191 hwAfterInitA8 .TIM1 .CH1 (by decide)
      (by decide)).2.2.2.1,
   (set_pwm_dutycycle_table_lookup handle254 191 hwAfterInitA8 .TIM1 .CH1 (by decide)
      (by decide)).2.2.2.2.2.2.2.2.1 .TIM3 (by decide)⟩

end CH32VPWM
